import Mathlib

/-!
Verification of the Route Segmentation and Alternative-Mode Augmentation
Engine of the WPR2 Projekt Gruppe5 repository.

The definitions below are a shallow embedding of the Python sources
src/scripts/route_segmentation.py, src/scripts/publiBike_api.py,
src/scripts/e_scooter_api.py and src/scripts/otp_integration.py.
Python floats are modelled as rationals, optional dictionary entries as
Option values, exceptions as Except values, and the external network
clients (PubliBike, Voi scooter, OTP trip planner) as records of oracle
functions supplied by the caller, so that every possible behaviour of the
outside world is quantified over.

Rational arithmetic is spelled with mkRat-based helper functions (qadd,
qsub, qmul, divq, qmax) because the Rat.add, Rat.sub, Rat.mul and Rat.inv
operations of this toolchain carry an irreducible attribute that blocks
kernel evaluation; the bridge lemmas qadd_eq, qsub_eq, qmul_eq and
divq_eq prove the helpers equal to the standard field operations, so no
meaning is changed.  Every division performed by the embedded code has a
positive integer constant divisor, which divq captures.
-/

namespace RouteSeg

/-! ## Numeric helpers: Python semantics on rationals -/

/-- Rational addition, written with mkRat so it evaluates by kernel
reduction.  Equal to the field addition by qadd_eq. -/
def qadd (a b : ℚ) : ℚ := mkRat (a.num * b.den + b.num * a.den) (a.den * b.den)

/-- Rational subtraction; equal to the field subtraction by qsub_eq. -/
def qsub (a b : ℚ) : ℚ := mkRat (a.num * b.den - b.num * a.den) (a.den * b.den)

/-- Rational multiplication; equal to the field multiplication by qmul_eq. -/
def qmul (a b : ℚ) : ℚ := mkRat (a.num * b.num) (a.den * b.den)

/-- Division of a rational by an integer constant; equal to the field
division by divq_eq.  All divisions performed by the embedded code divide
by integer constants (60, 3, 80, 1000, powers of 10). -/
def divq (q : ℚ) (d : ℕ) : ℚ := mkRat q.num (q.den * d)

/-- Python max(a, b) on numbers. -/
def qmax (a b : ℚ) : ℚ := if a ≤ b then b else a

/-- Sum of a list of rationals (Python sum(), left fold from 0). -/
def qsum (xs : List ℚ) : ℚ := xs.foldl qadd 0

/-- Python round() ties-to-even, rounding a rational to an integer. -/
def roundHalfEvenInt (q : ℚ) : ℤ :=
  let f : ℤ := q.floor
  let r : ℚ := qsub q (f : ℚ)
  if r < mkRat 1 2 then f
  else if mkRat 1 2 < r then f + 1
  else if f % 2 = 0 then f else f + 1

/-- Python round(x, n): round to n decimal digits, ties to even. -/
def pyRound (n : ℕ) (q : ℚ) : ℚ :=
  divq ((roundHalfEvenInt (qmul q ((10 ^ n : ℕ) : ℚ))) : ℚ) (10 ^ n)

/-- Python int() applied to a float: truncation toward zero. -/
def pyInt (q : ℚ) : ℤ :=
  if 0 ≤ q then q.floor else -((-q).floor)

/-- Absolute value, written out so that it evaluates by kernel reduction. -/
def pyAbs (q : ℚ) : ℚ := if q < 0 then -q else q

/-! ## String helpers: Python semantics -/

/-- Python str() of an optional string, as it appears inside an f-string:
a missing value prints as "None". -/
def pyStr (o : Option String) : String := o.getD "None"

/-- Python s.lower() (ASCII case folding, which covers the station terms
used by the source). -/
def pyLower (s : String) : String := String.mk (s.data.map Char.toLower)

/-- Python substring test needle in hay. -/
def strContainsSub (hay needle : String) : Bool :=
  (List.range (hay.data.length + 1)).any
    (fun i => needle.data == ((hay.data.drop i).take needle.data.length))

/-- Python f-string {x:.0f} formatting: round ties-to-even to an integer
and print it. -/
def formatF0 (q : ℚ) : String := toString (roundHalfEvenInt q)

/-! ## publiBike_api.py data model -/

/-- publiBike_api.Vehicle (fields read from the API response dict). -/
structure Vehicle where
  id : Option ℤ
  name : Option String
  type_id : Option ℤ
  type_name : String
  ebike_battery_level : Option ℚ
deriving DecidableEq

/-- Vehicle.is_ebike. -/
def Vehicle.is_ebike (v : Vehicle) : Bool := v.ebike_battery_level.isSome

/-- publiBike_api.StationState. -/
structure StationState where
  id : Option ℤ
  name : String
deriving DecidableEq

/-- StationState.is_active: id equal to 1 means active. -/
def StationState.is_active (s : StationState) : Bool := s.id == some 1

/-- publiBike_api.Station. -/
structure Station where
  id : Option ℤ
  latitude : ℚ
  longitude : ℚ
  state : StationState
  name : Option String := none
  address : Option String := none
  zip_code : Option String := none
  city : Option String := none
  vehicles : List Vehicle := []
deriving DecidableEq

/-- Station.is_active. -/
def Station.is_active (s : Station) : Bool := s.state.is_active

/-- Station.available_bikes_count. -/
def Station.available_bikes_count (s : Station) : ℕ := s.vehicles.length

/-- Station.available_ebikes_count. -/
def Station.available_ebikes_count (s : Station) : ℕ :=
  (s.vehicles.filter (fun v => v.is_ebike)).length

/-- Station.has_bikes_available. -/
def Station.has_bikes_available (s : Station) : Bool :=
  decide (0 < s.vehicles.length)

/-- publiBike_api.find_nearby_stations.  The Haversine distance computed
by calculate_distance uses transcendental functions, so the embedding
abstracts the distance function as the parameter dist (the source fixes
dist to the Haversine formula); every property proved below holds for
every dist and hence in particular for the Haversine distance. -/
def find_nearby_stations (dist : ℚ → ℚ → ℚ → ℚ → ℚ) (lat lon : ℚ)
    (stations : List Station) (radius_m : ℚ)
    (only_active : Bool) (only_with_bikes : Bool) : List (Station × ℚ) :=
  let nearby := stations.foldl (fun nearby station =>
    if only_active && !station.is_active then nearby
    else if only_with_bikes && !station.has_bikes_available then nearby
    else
      let distance := dist lat lon station.latitude station.longitude
      if distance ≤ radius_m then nearby ++ [(station, distance)] else nearby) []
  nearby.mergeSort (fun a b => a.2 ≤ b.2)

/-! ## e_scooter_api.py data model -/

/-- e_scooter_api.Scooter. -/
structure Scooter where
  vehicle_id : String
  latitude : ℚ
  longitude : ℚ
  provider_id : String
  provider_name : String
  vehicle_type : String
  battery_level : Option ℚ := none
  is_reserved : Bool := false
  is_disabled : Bool := false
  distance : Option ℚ := none
deriving DecidableEq

/-- Scooter.is_available. -/
def Scooter.is_available (s : Scooter) : Bool := !s.is_reserved && !s.is_disabled

/-- Scooter.get_battery_percentage. -/
def Scooter.get_battery_percentage (s : Scooter) : Option ℚ := s.battery_level

/-- e_scooter_api.find_nearby_scooters, with the Haversine distance
abstracted exactly as in find_nearby_stations. -/
def find_nearby_scooters (dist : ℚ → ℚ → ℚ → ℚ → ℚ) (lat lon : ℚ)
    (scooters : List Scooter) (radius_m : ℚ)
    (only_available : Bool) (min_battery_percentage : Option ℚ) :
    List (Scooter × ℚ) :=
  let nearby := scooters.foldl (fun nearby scooter =>
    if only_available && !scooter.is_available then nearby
    else if (match min_battery_percentage with
             | none => false
             | some mb =>
               match scooter.get_battery_percentage with
               | none => true
               | some b => decide (b < mb)) then nearby
    else
      let distance := dist lat lon scooter.latitude scooter.longitude
      if distance ≤ radius_m then nearby ++ [(scooter, distance)] else nearby) []
  nearby.mergeSort (fun a b => a.2 ≤ b.2)

/-! ## otp_integration.py data model -/

/-- One raw OTP itinerary, restricted to the fields that
parse_otp_itinerary reads and that flow onward into the route
segmentation engine (the legs list of the parsed dict is dropped because
no embedded caller reads it). -/
structure OTPItinerary where
  duration : Option ℚ := none
  startTime : Option ℤ := none
  endTime : Option ℤ := none
  walkDistance : Option ℚ := none
  transfers : Option ℤ := none
deriving DecidableEq

/-- The parsed itinerary dict produced by otp_integration.parse_otp_itinerary. -/
structure ParsedItinerary where
  duration_sec : ℚ
  duration_min : ℚ
  start_time : Option ℤ
  end_time : Option ℤ
  walk_distance_m : ℚ
  transfers : ℤ
deriving DecidableEq

/-- otp_integration.parse_otp_itinerary. -/
def parse_otp_itinerary (itinerary : OTPItinerary) : ParsedItinerary :=
  { duration_sec := itinerary.duration.getD 0
    duration_min := pyRound 1 (divq (itinerary.duration.getD 0) 60)
    start_time := itinerary.startTime
    end_time := itinerary.endTime
    walk_distance_m := itinerary.walkDistance.getD 0
    transfers := itinerary.transfers.getD 0 }

/-- An OTP plan response: otp_response.get('plan', {}).get('itineraries', []). -/
structure OTPResponse where
  itineraries : List OTPItinerary
deriving DecidableEq

/-! ## External clients as oracles

The engine calls get_nearby_bikes, get_nearby_return_stations,
get_nearby_scooters, plan_bicycle and plan, all of which perform network
requests.  Each is modelled as an oracle function of the coordinates and
radius it receives; an Except.error result models a raised exception (a
failure or timeout of the provider). -/

/-- The PubliBike side: get_nearby_bikes and get_nearby_return_stations
as invoked with a client (lat, lon, radius). -/
structure PBClient where
  nearbyBikes : ℚ → ℚ → ℚ → Except String (List (Station × ℚ))
  nearbyReturns : ℚ → ℚ → ℚ → Except String (List (Station × ℚ))

/-- The Voi scooter side: get_nearby_scooters as invoked with a client. -/
structure ESClient where
  nearbyScooters : ℚ → ℚ → ℚ → Except String (List (Scooter × ℚ))

/-- The OTP side: plan_bicycle (from_lat, from_lon, to_lat, to_lon,
num_itineraries) and plan (from_lat, from_lon, to_lat, to_lon, mode,
max_walk_distance, num_itineraries). -/
structure OTPClient where
  planBicycle : ℚ → ℚ → ℚ → ℚ → ℕ → Except String OTPResponse
  plan : ℚ → ℚ → ℚ → ℚ → String → ℚ → ℕ → Except String OTPResponse

/-! ## route_segmentation.py data model -/

/-- One leg of an OTP itinerary as read by route_segmentation.py: every
dictionary access in the source uses .get, so every field is optional. -/
structure Leg where
  mode : Option String := none
  route : Option String := none
  routeShortName : Option String := none
  routeLongName : Option String := none
  headsign : Option String := none
  fromName : Option String := none
  fromLat : Option ℚ := none
  fromLon : Option ℚ := none
  toName : Option String := none
  toLat : Option ℚ := none
  toLon : Option ℚ := none
  startTime : Option ℤ := none
  endTime : Option ℤ := none
  duration : Option ℚ := none
  distance : Option ℚ := none
deriving DecidableEq

/-- The itinerary consumed by the engine: otp_itinerary.get('legs', []). -/
structure Itinerary where
  legs : List Leg
deriving DecidableEq

/-- route_segmentation.TransferPoint. -/
structure TransferPoint where
  name : String
  latitude : ℚ
  longitude : ℚ
  arrival_time : Option ℤ := none
  departure_time : Option ℤ := none
  is_station : Bool := true
  modes_available : List String := []
deriving DecidableEq

/-- A default TransferPoint used only to totalise list indexing that the
Python source performs at provably in-bounds positions. -/
def defaultTP : TransferPoint :=
  { name := "", latitude := 0, longitude := 0 }

/-- The route_info dict of a RouteSegment; the source either leaves it
empty (none here) or fills these four keys from the mode-setting leg. -/
structure RouteInfo where
  route : Option String
  route_short_name : Option String
  route_long_name : Option String
  headsign : Option String
deriving DecidableEq

/-! ## Alternative payloads (the dicts built by
find_alternative_modes_at_transfer) -/

/-- The start_station payload of a publibike alternative. -/
structure BikeStartInfo where
  name : Option String
  distance_m : ℤ
  bikes_available : ℕ
  ebikes_available : ℕ
  latitude : ℚ
  longitude : ℚ
deriving DecidableEq

/-- The dest_station payload of a publibike alternative. -/
structure BikeDestInfo where
  name : Option String
  distance_m : ℤ
  latitude : ℚ
  longitude : ℚ
deriving DecidableEq

/-- The scooter payload of an e_scooter alternative. -/
structure ScooterInfo where
  id : String
  distance_m : ℤ
  battery_percentage : ℚ
  provider : String
  latitude : ℚ
  longitude : ℚ
deriving DecidableEq

/-- One alternative dict.  The Python dicts have a mode-specific shape
(bike alternatives carry start_station/dest_station, scooter alternatives
carry scooter); the absent payloads are none.  alt_type holds the Python
key named type. -/
structure Alternative where
  mode : String
  alt_type : String
  summary : String
  start_station : Option BikeStartInfo := none
  dest_station : Option BikeDestInfo := none
  scooter : Option ScooterInfo := none
  duration_min : Option ℚ
  distance_km : Option ℚ
  est_cost_chf : ℚ
deriving DecidableEq

/-- route_segmentation.RouteSegment. -/
structure RouteSegment where
  segment_id : String
  from_point : TransferPoint
  to_point : TransferPoint
  mode : String
  duration_min : ℚ
  distance_m : ℚ
  route_info : Option RouteInfo
  alternatives_available : Bool := false
  alternatives : List Alternative := []
deriving DecidableEq

/-! ## extract_transfer_points -/

/-- The is_transfer condition of route_segmentation.extract_transfer_points
for the adjacent pair (leg, next_leg): mode change, route change, or a
major-station name (bahnhof / station as case-insensitive substrings). -/
def isTransferBoundary (leg next_leg : Leg) : Bool :=
  leg.mode != next_leg.mode ||
  leg.route != next_leg.route ||
  strContainsSub (pyLower (leg.toName.getD "")) "bahnhof" ||
  strContainsSub (pyLower (leg.toName.getD "")) "station"

/-- The intermediate TransferPoint appended for boundary i between leg
and next_leg. -/
def interTP (i : ℕ) (leg next_leg : Leg) : TransferPoint :=
  { name := leg.toName.getD ("Transfer " ++ toString (i + 1))
    latitude := leg.toLat.getD 0
    longitude := leg.toLon.getD 0
    arrival_time := leg.endTime
    departure_time := next_leg.startTime
    is_station := true }

/-- The starting TransferPoint built from the first leg. -/
def startTP (first_leg : Leg) : TransferPoint :=
  { name := first_leg.fromName.getD "Start"
    latitude := first_leg.fromLat.getD 0
    longitude := first_leg.fromLon.getD 0
    departure_time := first_leg.startTime
    is_station := first_leg.mode != some "WALK" }

/-- The destination TransferPoint built from the last leg. -/
def destTP (last_leg : Leg) : TransferPoint :=
  { name := last_leg.toName.getD "Destination"
    latitude := last_leg.toLat.getD 0
    longitude := last_leg.toLon.getD 0
    arrival_time := last_leg.endTime
    is_station := false }

/-- The loop over enumerate(legs[:-1]) that appends one TransferPoint per
boundary satisfying is_transfer.  The pairs (legs[i], legs[i+1]) are the
zip of the leg list with its tail. -/
def interTPs (legs : List Leg) : List TransferPoint :=
  ((legs.zip legs.tail).enum).foldl
    (fun acc p =>
      if isTransferBoundary p.2.1 p.2.2 then acc ++ [interTP p.1 p.2.1 p.2.2]
      else acc) []

/-- route_segmentation.extract_transfer_points. -/
def extract_transfer_points (it : Itinerary) : List TransferPoint :=
  match it.legs with
  | [] => []
  | first_leg :: rest =>
    let legs := first_leg :: rest
    let last_leg := legs.getLast (List.cons_ne_nil _ _)
    startTP first_leg :: (interTPs legs ++ [destTP last_leg])

/-! ## create_route_segments -/

/-- The coordinate tolerance comparison of create_route_segments:
abs difference below 0.0001. -/
def closeTo (a b : ℚ) : Bool := pyAbs (qsub a b) < mkRat 1 10000

/-- Whether a leg ends at a transfer point, within the fixed tolerance. -/
def legMatchesTp (leg : Leg) (tp : TransferPoint) : Bool :=
  closeTo (leg.toLat.getD 0) tp.latitude &&
  closeTo (leg.toLon.getD 0) tp.longitude

/-- The primary-mode scan of a segment: the first leg whose mode is not
WALK sets the mode (TRANSIT if its mode key is missing) and the
route_info dict; otherwise WALK with an empty route_info. -/
def primaryModeInfo : List Leg → String × Option RouteInfo
  | [] => ("WALK", none)
  | l :: ls =>
    if l.mode != some "WALK" then
      (l.mode.getD "TRANSIT",
       some { route := l.route
              route_short_name := l.routeShortName
              route_long_name := l.routeLongName
              headsign := l.headsign })
    else primaryModeInfo ls

/-- Build the RouteSegment closed at leg index leg_idx.  segment_legs is
legs[current_segment_start : leg_idx + 1]; n_segments is the number of
segments already emitted (the source writes len(segments) + 1 into the
id); transfer_idx indexes the transfer-point pair.  The Python list
indexing transfer_points[transfer_idx - 1] and [transfer_idx] is only
executed under the guard transfer_idx < len(transfer_points) with
transfer_idx starting at 1, so the getD default is never selected. -/
def mkSegmentAt (legs : List Leg) (tps : List TransferPoint)
    (current_segment_start leg_idx n_segments transfer_idx : ℕ) : RouteSegment :=
  let segment_legs := (legs.take (leg_idx + 1)).drop current_segment_start
  let total_duration := divq (qsum (segment_legs.map (fun l => l.duration.getD 0))) 60
  let total_distance := qsum (segment_legs.map (fun l => l.distance.getD 0))
  let pm := primaryModeInfo segment_legs
  { segment_id := "seg-" ++ toString (n_segments + 1)
    from_point := tps.getD (transfer_idx - 1) defaultTP
    to_point := tps.getD transfer_idx defaultTP
    mode := pm.1
    duration_min := pyRound 1 total_duration
    distance_m := total_distance
    route_info := pm.2 }

/-- The main loop of create_route_segments over enumerate(legs), carrying
current_segment_start, transfer_idx and the emitted segments. -/
def createSegsAux (legs : List Leg) (tps : List TransferPoint) :
    List (ℕ × Leg) → ℕ → ℕ → List RouteSegment → List RouteSegment
  | [], _, _, segments => segments
  | (leg_idx, leg) :: rest, current_segment_start, transfer_idx, segments =>
    if transfer_idx < tps.length then
      if legMatchesTp leg (tps.getD transfer_idx defaultTP) then
        createSegsAux legs tps rest (leg_idx + 1) (transfer_idx + 1)
          (segments ++
            [mkSegmentAt legs tps current_segment_start leg_idx segments.length transfer_idx])
      else createSegsAux legs tps rest current_segment_start transfer_idx segments
    else createSegsAux legs tps rest current_segment_start transfer_idx segments

/-- route_segmentation.create_route_segments. -/
def create_route_segments (it : Itinerary) (transfer_points : List TransferPoint) :
    List RouteSegment :=
  let legs := it.legs
  if transfer_points.length < 2 then []
  else createSegsAux legs transfer_points legs.enum 0 1 []

/-! ## find_alternative_modes_at_transfer -/

/-- The inner OTP try of the PubliBike branch: plan a bicycle route from
the chosen start station to the chosen return station; on failure or an
empty plan, both estimates stay None. -/
def bikeEstimate (otp_client : Option OTPClient)
    (start_station dest_station : Station) (start_dist dest_dist : ℚ) :
    Option ℚ × Option ℚ :=
  match otp_client with
  | none => (none, none)
  | some oc =>
    match oc.planBicycle start_station.latitude start_station.longitude
        dest_station.latitude dest_station.longitude 1 with
    | Except.error _ => (none, none)
    | Except.ok otp_response =>
      match otp_response.itineraries with
      | [] => (none, none)
      | itin :: _ =>
        let parsed := parse_otp_itinerary itin
        let bike_time := parsed.duration_min
        let walk_to := pyRound 1 (divq start_dist 80)
        let walk_from := pyRound 1 (divq dest_dist 80)
        (some (qadd (qadd bike_time walk_to) walk_from),
         some (divq parsed.walk_distance_m 1000))

/-- The publibike alternative dict built from the chosen stations and the
estimates. -/
def mkBikeAlternative (start_station : Station) (start_dist : ℚ)
    (dest_station : Station) (dest_dist : ℚ) (est : Option ℚ × Option ℚ) :
    Alternative :=
  { mode := "publibike"
    alt_type := "bike_share"
    summary := "PubliBike from " ++ pyStr start_station.name ++ " (" ++
      toString (pyInt start_dist) ++ "m)"
    start_station := some
      { name := start_station.name
        distance_m := pyInt start_dist
        bikes_available := start_station.available_bikes_count
        ebikes_available := start_station.available_ebikes_count
        latitude := start_station.latitude
        longitude := start_station.longitude }
    dest_station := some
      { name := dest_station.name
        distance_m := pyInt dest_dist
        latitude := dest_station.latitude
        longitude := dest_station.longitude }
    duration_min := est.1
    distance_km := est.2
    est_cost_chf := 4 }

/-- The PubliBike try-block of find_alternative_modes_at_transfer: the two
nearby lookups run inside one try, and any raised exception (Except.error)
is caught by the enclosing except, contributing nothing.  The inner OTP
try catches plan_bicycle failures separately, leaving the duration and
distance estimates at None. -/
def bikeBranch (transfer_point destination : TransferPoint) (client : PBClient)
    (otp_client : Option OTPClient) (search_radius_m : ℚ) :
    Except String (List Alternative) :=
  match client.nearbyBikes transfer_point.latitude transfer_point.longitude
      search_radius_m with
  | Except.error e => Except.error e
  | Except.ok nearby_bikes =>
  match client.nearbyReturns destination.latitude destination.longitude
      search_radius_m with
  | Except.error e => Except.error e
  | Except.ok nearby_returns =>
  match nearby_bikes, nearby_returns with
  | (start_station, start_dist) :: _, (dest_station, dest_dist) :: _ =>
    Except.ok [mkBikeAlternative start_station start_dist dest_station dest_dist
      (bikeEstimate otp_client start_station dest_station start_dist dest_dist)]
  | _, _ => Except.ok []

/-- The inner OTP try of the E-Scooter branch: plan a WALK route from the
scooter to the destination as a proxy; on failure or an empty plan, fall
back to duration 10, distance None, cost 5. -/
def scooterEstimate (otp_client : Option OTPClient) (destination : TransferPoint)
    (scooter : Scooter) (scooter_dist : ℚ) : Option ℚ × Option ℚ × ℚ :=
  match otp_client with
  | none => (some 10, none, 5)
  | some oc =>
    match oc.plan scooter.latitude scooter.longitude
        destination.latitude destination.longitude "WALK" 10000 1 with
    | Except.error _ => (some 10, none, 5)
    | Except.ok otp_response =>
      match otp_response.itineraries with
      | [] => (some 10, none, 5)
      | itin :: _ =>
        let parsed := parse_otp_itinerary itin
        let scooter_time := qmax 3 (pyRound 1 (divq parsed.duration_min 3))
        let walk_to := pyRound 1 (divq scooter_dist 80)
        (some (qadd scooter_time walk_to),
         some (divq parsed.walk_distance_m 1000),
         pyRound 2 (qadd 1 (qmul scooter_time (mkRat 29 100))))

/-- The e_scooter alternative dict built from the chosen scooter and the
estimates; the battery defaults to 100 in the payload when unknown, and
the summary omits the battery clause exactly when it is unknown. -/
def mkScooterAlternative (scooter : Scooter) (scooter_dist : ℚ)
    (est : Option ℚ × Option ℚ × ℚ) : Alternative :=
  let battery := scooter.get_battery_percentage
  let battery_pct := battery.getD 100
  let summary :=
    match battery with
    | some _ => "Voi Scooter (" ++ toString (pyInt scooter_dist) ++ "m away, " ++
        formatF0 battery_pct ++ "% battery)"
    | none => "Voi Scooter (" ++ toString (pyInt scooter_dist) ++ "m away)"
  { mode := "e_scooter"
    alt_type := "scooter_share"
    summary := summary
    scooter := some
      { id := scooter.vehicle_id
        distance_m := pyInt scooter_dist
        battery_percentage := battery_pct
        provider := scooter.provider_name
        latitude := scooter.latitude
        longitude := scooter.longitude }
    duration_min := est.1
    distance_km := est.2.1
    est_cost_chf := est.2.2 }

/-- The E-Scooter try-block of find_alternative_modes_at_transfer.  When
the OTP client is absent, fails, or returns no itinerary, the source
falls back to duration 10, distance None and cost 5. -/
def scooterBranch (transfer_point destination : TransferPoint) (client : ESClient)
    (otp_client : Option OTPClient) (search_radius_m : ℚ) :
    Except String (List Alternative) :=
  match client.nearbyScooters transfer_point.latitude
      transfer_point.longitude search_radius_m with
  | Except.error e => Except.error e
  | Except.ok nearby_scooters =>
  match nearby_scooters with
  | [] => Except.ok []
  | (scooter, scooter_dist) :: _ =>
    Except.ok [mkScooterAlternative scooter scooter_dist
      (scooterEstimate otp_client destination scooter scooter_dist)]

/-- route_segmentation.find_alternative_modes_at_transfer: runs the
PubliBike branch then the E-Scooter branch, each under its own
exception-swallowing except clause. -/
def find_alternative_modes_at_transfer (transfer_point destination : TransferPoint)
    (publibike_client : Option PBClient) (escooter_client : Option ESClient)
    (otp_client : Option OTPClient) (search_radius_m : ℚ) : List Alternative :=
  let alternatives : List Alternative := []
  let alternatives :=
    match publibike_client with
    | none => alternatives
    | some client =>
      match bikeBranch transfer_point destination client otp_client search_radius_m with
      | Except.error _ => alternatives
      | Except.ok contrib => alternatives ++ contrib
  let alternatives :=
    match escooter_client with
    | none => alternatives
    | some client =>
      match scooterBranch transfer_point destination client otp_client search_radius_m with
      | Except.error _ => alternatives
      | Except.ok contrib => alternatives ++ contrib
  alternatives

/-! ## analyze_route_with_alternatives -/

/-- The transfer-point dict of the result of analyze_route_with_alternatives. -/
structure TPOut where
  name : String
  latitude : ℚ
  longitude : ℚ
  arrival_time : Option ℤ
  departure_time : Option ℤ
  is_station : Bool
deriving DecidableEq

/-- The segment dict of the result (the keys from and to hold names). -/
structure SegOut where
  segment_id : String
  from_name : String
  to_name : String
  mode : String
  duration_min : ℚ
  distance_m : ℚ
  route_info : Option RouteInfo
  alternatives_available : Bool
  alternatives : List Alternative
deriving DecidableEq

/-- The result dict of analyze_route_with_alternatives.  total_transfers
is len(transfer_points) - 2 as a signed integer. -/
structure AnalyzeResult where
  transfer_points : List TPOut
  segments : List SegOut
  total_segments : ℕ
  total_transfers : ℤ
deriving DecidableEq

/-- The per-segment body of the for-loop of analyze_route_with_alternatives.
Each iteration mutates only segment i, so the loop is a map over the
enumerated segment list; n_segments is the (unchanging) length of that
list and final_dest is transfer_points[-1]. -/
def augmentSegment (publibike_client : Option PBClient) (escooter_client : Option ESClient)
    (otp_client : Option OTPClient) (final_dest : TransferPoint) (n_segments : ℕ)
    (i : ℕ) (segment : RouteSegment) : RouteSegment :=
  let segment :=
    if i = 0 then
      let start_alternatives := find_alternative_modes_at_transfer
        segment.from_point final_dest publibike_client escooter_client otp_client 300
      if start_alternatives.isEmpty then segment
      else { segment with alternatives_available := true
                          alternatives := start_alternatives }
    else segment
  if i < n_segments - 1 then
    let alternatives := find_alternative_modes_at_transfer
      segment.to_point final_dest publibike_client escooter_client otp_client 300
    if alternatives.isEmpty then segment
    else if segment.alternatives_available && i == 0 then
      { segment with alternatives := segment.alternatives ++ alternatives }
    else
      { segment with alternatives_available := true
                     alternatives := alternatives }
  else segment

/-- route_segmentation.analyze_route_with_alternatives.  The Python
expression transfer_points[-1] is evaluated only inside the loop, whose
body runs only when at least one segment exists, which forces at least
two transfer points; the getD default is therefore never selected. -/
def analyze_route_with_alternatives (otp_itinerary : Itinerary)
    (publibike_client : Option PBClient) (escooter_client : Option ESClient)
    (otp_client : Option OTPClient) : AnalyzeResult :=
  let transfer_points := extract_transfer_points otp_itinerary
  let segments := create_route_segments otp_itinerary transfer_points
  let final_dest := transfer_points.getLast?.getD defaultTP
  let segments := segments.enum.map
    (fun p => augmentSegment publibike_client escooter_client otp_client final_dest
      segments.length p.1 p.2)
  { transfer_points := transfer_points.map (fun tp =>
      { name := tp.name
        latitude := tp.latitude
        longitude := tp.longitude
        arrival_time := tp.arrival_time
        departure_time := tp.departure_time
        is_station := tp.is_station })
    segments := segments.map (fun seg =>
      { segment_id := seg.segment_id
        from_name := seg.from_point.name
        to_name := seg.to_point.name
        mode := seg.mode
        duration_min := seg.duration_min
        distance_m := seg.distance_m
        route_info := seg.route_info
        alternatives_available := seg.alternatives_available
        alternatives := seg.alternatives })
    total_segments := segments.length
    total_transfers := (transfer_points.length : ℤ) - 2 }

/-! ## Specification-side helper functions

These are not translations of source code; they are observation devices
used to state the claims (boundary conditions by index, and the
cut-point description of the segment list). -/

/-- A leg with every optional field missing; used only to totalise
indexing at provably in-bounds positions. -/
def defaultLeg : Leg := {}

/-- The destination coordinates of a leg as read by the engine
(missing entries default to 0). -/
def legToCoords (l : Leg) : ℚ × ℚ := (l.toLat.getD 0, l.toLon.getD 0)

/-- The coordinates of a transfer point. -/
def tpCoords (tp : TransferPoint) : ℚ × ℚ := (tp.latitude, tp.longitude)

/-- The transfer condition at boundary i of a leg list, i.e. the
is_transfer test evaluated on legs[i] and legs[i+1]. -/
def transferCond (legs : List Leg) (i : ℕ) : Bool :=
  isTransferBoundary (legs.getD i defaultLeg) (legs.getD (i + 1) defaultLeg)

/-- The intermediate transfer point the detector builds at boundary i. -/
def interTPAt (legs : List Leg) (i : ℕ) : TransferPoint :=
  interTP i (legs.getD i defaultLeg) (legs.getD (i + 1) defaultLeg)

/-- Rebuild a segment list from the ordered list of closing leg indices
(the cut points): the first segment spans legs [0, e0], the next
[e0 + 1, e1], and so on.  The counter c numbers the segments. -/
def segmentsFromEndsAux (legs : List Leg) (tps : List TransferPoint) :
    ℕ → ℕ → List ℕ → List RouteSegment
  | _, _, [] => []
  | start, c, e :: es =>
    mkSegmentAt legs tps start e c (c + 1) ::
      segmentsFromEndsAux legs tps (e + 1) (c + 1) es

/-- Segment list described by its cut points, starting at leg 0. -/
def segmentsFromEnds (legs : List Leg) (tps : List TransferPoint)
    (ends : List ℕ) : List RouteSegment :=
  segmentsFromEndsAux legs tps 0 0 ends


/-! ## Concrete instances and observation projections used by the
claims, their witnesses and counterexamples -/

/-- Observation device: the contribution of the PubliBike branch after
its exception handler (errors are swallowed to an empty contribution). -/
def bikeAlts (transfer_point destination : TransferPoint)
    (publibike_client : Option PBClient) (otp_client : Option OTPClient)
    (search_radius_m : ℚ) : List Alternative :=
  match publibike_client with
  | none => []
  | some client =>
    match bikeBranch transfer_point destination client otp_client search_radius_m with
    | Except.error _ => []
    | Except.ok contrib => contrib

/-- Observation device: the contribution of the E-Scooter branch after
its exception handler. -/
def scooterAlts (transfer_point destination : TransferPoint)
    (escooter_client : Option ESClient) (otp_client : Option OTPClient)
    (search_radius_m : ℚ) : List Alternative :=
  match escooter_client with
  | none => []
  | some client =>
    match scooterBranch transfer_point destination client otp_client search_radius_m with
    | Except.error _ => []
    | Except.ok contrib => contrib

/-- The per-segment output dict of analyze_route_with_alternatives, as a
named function (the source inlines this projection). -/
def segToOut (seg : RouteSegment) : SegOut :=
  { segment_id := seg.segment_id
    from_name := seg.from_point.name
    to_name := seg.to_point.name
    mode := seg.mode
    duration_min := seg.duration_min
    distance_m := seg.distance_m
    route_info := seg.route_info
    alternatives_available := seg.alternatives_available
    alternatives := seg.alternatives }

/-- The per-transfer-point output dict of analyze_route_with_alternatives. -/
def tpToOut (tp : TransferPoint) : TPOut :=
  { name := tp.name
    latitude := tp.latitude
    longitude := tp.longitude
    arrival_time := tp.arrival_time
    departure_time := tp.departure_time
    is_station := tp.is_station }

/-- Scenario A: a single-leg WALK itinerary across Bern. -/
def itA : Itinerary :=
  ⟨[{ mode := some "WALK", fromName := some "Start",
      fromLat := some (mkRat 4695 100), fromLon := some (mkRat 744 100),
      toName := some "Ziel", toLat := some (mkRat 4694 100), toLon := some (mkRat 743 100),
      startTime := some 0, endTime := some 600000,
      duration := some 600, distance := some 1400 }]⟩

/-- Scenario B: WALK then TRAM then WALK, a mode change at each boundary. -/
def itB : Itinerary :=
  ⟨[{ mode := some "WALK", fromName := some "Start",
      fromLat := some 0, fromLon := some 0,
      toName := some "Halt A", toLat := some 1, toLon := some 1,
      startTime := some 0, endTime := some 300000,
      duration := some 300, distance := some 250 },
    { mode := some "TRAM", route := some "6", routeShortName := some "6",
      fromName := some "Halt A", fromLat := some 1, fromLon := some 1,
      toName := some "Halt B", toLat := some 2, toLon := some 2,
      startTime := some 300000, endTime := some 840000,
      duration := some 540, distance := some 2600 },
    { mode := some "WALK", fromName := some "Halt B",
      fromLat := some 2, fromLon := some 2,
      toName := some "Ziel", toLat := some 3, toLon := some 3,
      startTime := some 840000, endTime := some 1020000,
      duration := some 180, distance := some 150 }]⟩

/-- Two legs on the same bus line whose final destination lies within the
0.0001-degree tolerance of the first leg's destination: no transfer is
detected at the boundary, and the first leg already matches the final
transfer point's coordinates. -/
def itC3x : Itinerary :=
  ⟨[{ mode := some "BUS", route := some "1", fromName := some "A",
      fromLat := some 0, fromLon := some 0,
      toName := some "B", toLat := some 1, toLon := some 1,
      startTime := some 0, endTime := some 600000,
      duration := some 600, distance := some 1000 },
    { mode := some "BUS", route := some "1", fromName := some "B",
      fromLat := some 1, fromLon := some 1,
      toName := some "C", toLat := some 1, toLon := some (mkRat 100005 100000),
      startTime := some 600000, endTime := some 900000,
      duration := some 300, distance := some 500 }]⟩

/-- A first leg with no mode key next to a BUS leg on the same route,
with a destination name matching no station term. -/
def it9 : Itinerary :=
  ⟨[{ route := some "9", fromName := some "A",
      fromLat := some 0, fromLon := some 0,
      toName := some "B", toLat := some 1, toLon := some 1,
      duration := some 120, distance := some 800 },
    { mode := some "BUS", route := some "9", fromName := some "B",
      fromLat := some 1, fromLon := some 1,
      toName := some "C", toLat := some 2, toLon := some 2,
      duration := some 120, distance := some 800 }]⟩

/-- A PubliBike client that always fails. -/
def pbFail : PBClient :=
  { nearbyBikes := fun _ _ _ => Except.error "ProviderUnavailable"
    nearbyReturns := fun _ _ _ => Except.error "ProviderUnavailable" }

/-- A scooter client that always fails. -/
def esFail : ESClient :=
  { nearbyScooters := fun _ _ _ => Except.error "ProviderUnavailable" }

/-- Concrete transfer point used in provider-claim witnesses. -/
def tpC : TransferPoint :=
  { name := "Bern, Bahnhof", latitude := mkRat 4695 100, longitude := mkRat 744 100 }

/-- Concrete final destination used in provider-claim witnesses. -/
def destC : TransferPoint :=
  { name := "Ziel", latitude := mkRat 4694 100, longitude := mkRat 743 100
    is_station := false }

/-- A concrete active start station holding one classic bike. -/
def stationC1 : Station :=
  { id := some 10, latitude := 1, longitude := 1
    state := { id := some 1, name := "Active" }
    name := some "Hirschengraben"
    vehicles := [{ id := some 5, name := some "Bike 5", type_id := some 1
                   type_name := "Bike", ebike_battery_level := none }] }

/-- A concrete active return station. -/
def stationC2 : Station :=
  { id := some 11, latitude := 2, longitude := 2
    state := { id := some 1, name := "Active" }
    name := some "Zytglogge" }

/-- A PubliBike client that finds stationC1 at 120 m and stationC2 at 80 m. -/
def pbC : PBClient :=
  { nearbyBikes := fun _ _ _ => Except.ok [(stationC1, 120)]
    nearbyReturns := fun _ _ _ => Except.ok [(stationC2, 80)] }

/-- An OTP client whose every call times out. -/
def otpFailC : OTPClient :=
  { planBicycle := fun _ _ _ _ _ => Except.error "timeout"
    plan := fun _ _ _ _ _ _ _ => Except.error "timeout" }

/-- Scenario C scooter: one available Voi scooter with 42 percent battery. -/
def scooterC : Scooter :=
  { vehicle_id := "voi-42", latitude := 3, longitude := 3
    provider_id := "voiscooters.com", provider_name := "Voi Technology AB"
    vehicle_type := "E-Scooter", battery_level := some 42 }

/-- A PubliBike client with bikes at the start but no return station. -/
def pbNoReturn : PBClient :=
  { nearbyBikes := fun _ _ _ => Except.ok [(stationC1, 120)]
    nearbyReturns := fun _ _ _ => Except.ok [] }

/-- A scooter client that finds scooterC at 150 m. -/
def esC : ESClient :=
  { nearbyScooters := fun _ _ _ => Except.ok [(scooterC, 150)] }

/-- An OTP client that always answers with one 720-second, 2400-meter
itinerary. -/
def otpOkC : OTPClient :=
  { planBicycle := fun _ _ _ _ _ =>
      Except.ok ⟨[{ duration := some 720, startTime := some 0, endTime := some 720000
                    walkDistance := some 2400, transfers := some 0 }]⟩
    plan := fun _ _ _ _ _ _ _ =>
      Except.ok ⟨[{ duration := some 720, startTime := some 0, endTime := some 720000
                    walkDistance := some 2400, transfers := some 0 }]⟩ }

/-- A Voi scooter whose battery level is unreported. -/
def scooterNB : Scooter :=
  { vehicle_id := "voi-77", latitude := 3, longitude := 3
    provider_id := "voiscooters.com", provider_name := "Voi Technology AB"
    vehicle_type := "E-Scooter", battery_level := none }

/-- A scooter client that finds scooterNB at 90 m. -/
def esNB : ESClient :=
  { nearbyScooters := fun _ _ _ => Except.ok [(scooterNB, 90)] }

/-- The minimum-battery prefilter of find_nearby_scooters: skip a scooter
when a minimum is requested and its battery is unknown or below it. -/
def batteryFilter (mb : Option ℚ) (s : Scooter) : Bool :=
  match mb with
  | none => false
  | some m =>
    match s.get_battery_percentage with
    | none => true
    | some b => decide (b < m)

/-- A concrete active station for the C8 witness. -/
def st0 : Station :=
  { id := some 1, latitude := 1, longitude := 1
    state := { id := some 1, name := "Active" } }
/-! ## Bridge lemmas: the mkRat-based helpers are the field operations -/

theorem qadd_eq (a b : ℚ) : qadd a b = a + b := by
  have ha : ((a.den : ℤ) : ℚ) ≠ 0 := by exact_mod_cast a.den_nz
  have hb : ((b.den : ℤ) : ℚ) ≠ 0 := by exact_mod_cast b.den_nz
  rw [qadd, Rat.mkRat_eq_div]
  conv_rhs => rw [← Rat.num_div_den a, ← Rat.num_div_den b]
  push_cast
  field_simp
  try ring

theorem qsub_eq (a b : ℚ) : qsub a b = a - b := by
  have ha : ((a.den : ℤ) : ℚ) ≠ 0 := by exact_mod_cast a.den_nz
  have hb : ((b.den : ℤ) : ℚ) ≠ 0 := by exact_mod_cast b.den_nz
  rw [qsub, Rat.mkRat_eq_div]
  conv_rhs => rw [← Rat.num_div_den a, ← Rat.num_div_den b]
  push_cast
  field_simp
  try ring

theorem qmul_eq (a b : ℚ) : qmul a b = a * b := by
  have ha : ((a.den : ℤ) : ℚ) ≠ 0 := by exact_mod_cast a.den_nz
  have hb : ((b.den : ℤ) : ℚ) ≠ 0 := by exact_mod_cast b.den_nz
  rw [qmul, Rat.mkRat_eq_div]
  conv_rhs => rw [← Rat.num_div_den a, ← Rat.num_div_den b]
  push_cast
  field_simp
  try ring

theorem divq_eq (q : ℚ) (d : ℕ) : divq q d = q / d := by
  have ha : ((q.den : ℤ) : ℚ) ≠ 0 := by exact_mod_cast q.den_nz
  rw [divq, Rat.mkRat_eq_div]
  conv_rhs => rw [← Rat.num_div_den q]
  push_cast
  field_simp
  try ring

theorem qmax_eq (a b : ℚ) : qmax a b = max a b := by
  rw [qmax, max_def]

theorem pyAbs_eq (q : ℚ) : pyAbs q = |q| := by
  rw [pyAbs]
  by_cases h : q < 0
  · simp [h, abs_of_neg h]
  · simp [h, abs_of_nonneg (not_lt.mp h)]

/-! ## Generic list lemmas -/

/-- A foldl that conditionally appends one element is a filterMap. -/
theorem foldl_guard_append {α β : Type} (p : α → Bool) (g : α → β) :
    ∀ (xs : List α) (acc : List β),
      xs.foldl (fun a x => if p x then a ++ [g x] else a) acc
        = acc ++ xs.filterMap (fun x => if p x then some (g x) else none) := by
  intro xs
  induction xs with
  | nil => intro acc; simp
  | cons x xs ih =>
    intro acc
    by_cases h : p x
    · simp only [List.foldl_cons, h, if_true, ih, List.filterMap_cons]
      simp [h]
    · simp only [List.foldl_cons, h, if_false, ih, List.filterMap_cons]
      simp [h]

/-- A guarded filterMap is a sublist of the corresponding map. -/
theorem filterMap_guard_sublist {α β : Type} (p : α → Bool) (g : α → β) :
    ∀ xs : List α,
      (xs.filterMap (fun x => if p x then some (g x) else none)).Sublist (xs.map g) := by
  intro xs
  induction xs with
  | nil => simp
  | cons x xs ih =>
    by_cases h : p x
    · simpa [List.filterMap_cons, h] using ih.cons₂ (g x)
    · simpa [List.filterMap_cons, h] using ih.cons (g x)

/-- The first components of the zip of a list with its tail form its
dropLast. -/
theorem map_fst_zip_tail {α : Type} :
    ∀ l : List α, (l.zip l.tail).map Prod.fst = l.dropLast := by
  intro l
  induction l with
  | nil => simp
  | cons a t ih =>
    cases t with
    | nil => simp
    | cons b t' => simpa using ih

/-- A filterMap over an enumeration, described index by index over the
range of the length. -/
theorem enumFrom_filterMap_flatten {β γ : Type} (f : ℕ × β → Option γ) (d : β) :
    ∀ (ys : List β) (k : ℕ),
      (List.enumFrom k ys).filterMap f
        = ((List.range ys.length).map
            (fun i => (f (k + i, ys.getD i d)).toList)).flatten := by
  intro ys
  induction ys with
  | nil => intro k; simp
  | cons y ys ih =>
    intro k
    have h2 : ((List.range ys.length).map Nat.succ).map
        (fun i => (f (k + i, (y :: ys).getD i d)).toList)
        = (List.range ys.length).map (fun i => (f (k + 1 + i, ys.getD i d)).toList) := by
      rw [List.map_map]
      refine List.map_congr_left ?_
      intro i _
      have h3 : k + Nat.succ i = k + 1 + i := by omega
      simp [Function.comp, h3]
    rw [List.enumFrom_cons, List.filterMap_cons, List.length_cons,
      List.range_succ_eq_map, List.map_cons, List.flatten_cons, ih (k + 1), ← h2]
    cases hf : f (k, y) with
    | none => simp [hf]
    | some c => simp [hf]

/-! ## Characterization of the transfer-point detector -/

/-- The append loop of interTPs is a filterMap over the enumerated
adjacent pairs. -/
theorem interTPs_eq_filterMap (legs : List Leg) :
    interTPs legs = ((legs.zip legs.tail).enum).filterMap
      (fun p => if isTransferBoundary p.2.1 p.2.2
                then some (interTP p.1 p.2.1 p.2.2) else none) := by
  rw [interTPs]
  simpa using foldl_guard_append
    (fun p : ℕ × (Leg × Leg) => isTransferBoundary p.2.1 p.2.2)
    (fun p => interTP p.1 p.2.1 p.2.2) ((legs.zip legs.tail).enum) []

/-- The number of adjacent pairs is the leg count minus one. -/
theorem zip_tail_length {α : Type} (l : List α) :
    (l.zip l.tail).length = l.length - 1 := by
  rw [List.length_zip, List.length_tail]
  omega

/-- The i-th adjacent pair is (legs[i], legs[i+1]). -/
theorem zip_tail_getD (legs : List Leg) (i : ℕ) (hi : i < (legs.zip legs.tail).length) :
    (legs.zip legs.tail).getD i (defaultLeg, defaultLeg)
      = (legs.getD i defaultLeg, legs.getD (i + 1) defaultLeg) := by
  have h1 : i < legs.length := by
    have := zip_tail_length legs
    omega
  have h2 : i < legs.tail.length := by
    rw [List.length_tail]
    have := zip_tail_length legs
    omega
  have h3 : i + 1 < legs.length := by
    rw [List.length_tail] at h2
    omega
  rw [List.getD_eq_getElem _ _ hi, List.getElem_zip, List.getElem_tail,
    List.getD_eq_getElem _ _ h1, List.getD_eq_getElem _ _ h3]

/-- Boundary-indexed description of the intermediate transfer points: for
each adjacent pair index i, exactly the singleton [interTPAt legs i] is
contributed when the transfer condition holds at i, and nothing
otherwise. -/
theorem interTPs_characterization (legs : List Leg) :
    interTPs legs = ((List.range (legs.length - 1)).map
      (fun i => if transferCond legs i then [interTPAt legs i] else [])).flatten := by
  rw [interTPs_eq_filterMap]
  have henum : (legs.zip legs.tail).enum = List.enumFrom 0 (legs.zip legs.tail) := rfl
  rw [henum, enumFrom_filterMap_flatten _ (defaultLeg, defaultLeg), zip_tail_length]
  refine congrArg List.flatten (List.map_congr_left ?_)
  intro i hi
  have hi' : i < (legs.zip legs.tail).length := by
    rw [zip_tail_length]
    exact List.mem_range.mp hi
  rw [Nat.zero_add, zip_tail_getD legs i hi']
  simp only [transferCond, interTPAt]
  by_cases h : isTransferBoundary (legs.getD i defaultLeg) (legs.getD (i + 1) defaultLeg) = true
  · rw [if_pos h, if_pos h]
    rfl
  · rw [if_neg h, if_neg h]
    rfl

/-- The shape of the extracted transfer points for a nonempty leg list. -/
theorem extract_eq (it : Itinerary) (hne : it.legs ≠ []) :
    extract_transfer_points it
      = startTP (it.legs.head hne)
          :: (interTPs it.legs ++ [destTP (it.legs.getLast hne)]) := by
  rcases it with ⟨legs⟩
  cases legs with
  | nil => exact absurd rfl hne
  | cons first_leg rest => rfl

/-- extract_transfer_points emits two points more than the intermediate
list (origin and destination). -/
theorem extract_length (it : Itinerary) (hne : it.legs ≠ []) :
    (extract_transfer_points it).length = (interTPs it.legs).length + 2 := by
  rw [extract_eq it hne]
  simp

/-! ## The coordinate trail: transfer points after the origin match legs
in order -/

/-- Exact coordinate equality forces a tolerance match. -/
theorem legMatchesTp_of_coords_eq (l : Leg) (tp : TransferPoint)
    (h : legToCoords l = tpCoords tp) : legMatchesTp l tp = true := by
  have h1 : l.toLat.getD 0 = tp.latitude := congrArg Prod.fst h
  have h2 : l.toLon.getD 0 = tp.longitude := congrArg Prod.snd h
  have hz : ∀ a : ℚ, closeTo a a = true := by
    intro a
    rw [closeTo, qsub_eq]
    simp only [sub_self]
    decide
  rw [legMatchesTp, h1, h2, hz, hz]
  rfl

/-- The coordinates of the transfer points after the origin, in order,
are a sublist of the leg destination coordinates. -/
theorem tail_coords_sublist (legs : List Leg) (hne : legs ≠ []) :
    (((interTPs legs ++ [destTP (legs.getLast hne)]).map tpCoords)).Sublist
      (legs.map legToCoords) := by
  have h1 : (interTPs legs).map tpCoords
      = ((legs.zip legs.tail).enum).filterMap
          (fun p => if isTransferBoundary p.2.1 p.2.2
                    then some (legToCoords p.2.1) else none) := by
    have hfun : (fun x : ℕ × (Leg × Leg) => Option.map tpCoords
        (if isTransferBoundary x.2.1 x.2.2 = true then some (interTP x.1 x.2.1 x.2.2) else none))
        = (fun p : ℕ × (Leg × Leg) => if isTransferBoundary p.2.1 p.2.2 = true
            then some (legToCoords p.2.1) else none) := by
      funext p
      by_cases h : isTransferBoundary p.2.1 p.2.2 = true
      · rw [if_pos h, if_pos h]
        rfl
      · rw [if_neg h, if_neg h]
        rfl
    rw [interTPs_eq_filterMap, List.map_filterMap, hfun]
  have h2 := filterMap_guard_sublist
    (fun p : ℕ × (Leg × Leg) => isTransferBoundary p.2.1 p.2.2)
    (fun p => legToCoords p.2.1) ((legs.zip legs.tail).enum)
  have h3 : ((legs.zip legs.tail).enum).map (fun p => legToCoords p.2.1)
      = legs.dropLast.map legToCoords := by
    have e1 : ((legs.zip legs.tail).enum).map (fun p => legToCoords p.2.1)
        = (((legs.zip legs.tail).enum).map Prod.snd).map (fun q => legToCoords q.1) := by
      rw [List.map_map]
      rfl
    rw [e1, List.enum_map_snd]
    have e2 : (legs.zip legs.tail).map (fun q => legToCoords q.1)
        = ((legs.zip legs.tail).map Prod.fst).map legToCoords := by
      rw [List.map_map]
      rfl
    rw [e2, map_fst_zip_tail]
  have h4 : legs.map legToCoords
      = legs.dropLast.map legToCoords ++ [legToCoords (legs.getLast hne)] := by
    conv_lhs => rw [← List.dropLast_append_getLast hne]
    simp
  rw [List.map_append, h4]
  refine List.Sublist.append ?_ ?_
  · rw [h1]
    rw [h3] at h2
    exact h2
  · have : [destTP (legs.getLast hne)].map tpCoords = [legToCoords (legs.getLast hne)] := by
      simp [tpCoords, destTP, legToCoords]
    rw [this]

/-- The rebuilt segment list has one segment per cut point. -/
theorem segmentsFromEndsAux_length (legs : List Leg) (tps : List TransferPoint) :
    ∀ (ends : List ℕ) (start c : ℕ),
      (segmentsFromEndsAux legs tps start c ends).length = ends.length := by
  intro ends
  induction ends with
  | nil => intro start c; rfl
  | cons e es ih => intro start c; simp [segmentsFromEndsAux, ih]

end RouteSeg


namespace RouteSeg

/-- Inversion for a sublist relation between two nonempty lists: either
the head is skipped, or the heads agree and the tails are related. -/
theorem cons_sublist_cons_inv {α : Type} {a b : α} {l₁ l₂ : List α}
    (h : (a :: l₁).Sublist (b :: l₂)) :
    (a :: l₁).Sublist l₂ ∨ (a = b ∧ l₁.Sublist l₂) := by
  cases h with
  | cons _ h => exact Or.inl h
  | cons₂ _ h => exact Or.inr ⟨rfl, h⟩

/-- The main loop invariant of create_route_segments.  Starting from leg
index j with transfer index one past the emitted segment count, and with
the remaining transfer-point coordinates forming a sublist of the
remaining leg destination coordinates, the loop emits exactly one
segment per remaining transfer point, the emitted segments are described
by a strictly increasing list of cut indices, and all transfer points
get consumed. -/
theorem createSegsAux_spec (legs : List Leg) (tps : List TransferPoint) :
    ∀ (pairs : List (ℕ × Leg)) (j current_start transfer_idx : ℕ)
      (segments : List RouteSegment),
      pairs = (legs.enum).drop j →
      transfer_idx = segments.length + 1 →
      transfer_idx ≤ tps.length →
      ((tps.drop transfer_idx).map tpCoords).Sublist
        (pairs.map (fun p => legToCoords p.2)) →
      ∃ ends : List ℕ,
        List.Chain' (· < ·) ends ∧
        (∀ e ∈ ends, j ≤ e ∧ e < legs.length) ∧
        createSegsAux legs tps pairs current_start transfer_idx segments
          = segments ++ segmentsFromEndsAux legs tps current_start segments.length ends ∧
        ends.length + transfer_idx = tps.length := by
  intro pairs
  induction pairs generalizing legs tps with
  | nil =>
    intro j current_start transfer_idx segments hp hinv hle hsub
    refine ⟨[], List.chain'_nil, by simp, by simp [createSegsAux, segmentsFromEndsAux], ?_⟩
    have hnil : tps.length ≤ transfer_idx := by simpa using hsub
    simp only [List.length_nil]
    omega
  | cons hd rest ih =>
    intro j current_start transfer_idx segments hp hinv hle hsub
    obtain ⟨leg_idx, leg⟩ := hd
    have hjlt : j < legs.length := by
      by_contra hcon
      have hlenle : legs.enum.length ≤ j := by
        rw [List.enum_length]
        omega
      rw [List.drop_eq_nil_of_le hlenle] at hp
      exact List.cons_ne_nil _ _ hp
    have hjlt' : j < legs.enum.length := by rw [List.enum_length]; exact hjlt
    have hdrop : (legs.enum).drop j = legs.enum[j] :: (legs.enum).drop (j + 1) :=
      List.drop_eq_getElem_cons hjlt'
    have henumj : legs.enum[j] = (j, legs[j]) := List.getElem_enum _ _ _
    rw [hdrop, henumj] at hp
    obtain ⟨hpair, hrest⟩ := List.cons_eq_cons.mp hp
    obtain ⟨hleg_idx, hleg⟩ := Prod.mk.inj hpair
    have hj : j = leg_idx := hleg_idx.symm
    subst hj
    subst hleg
    by_cases hguard : transfer_idx < tps.length
    · have htp : tps.drop transfer_idx = tps[transfer_idx] :: tps.drop (transfer_idx + 1) :=
        List.drop_eq_getElem_cons hguard
      have hgetD : tps.getD transfer_idx defaultTP = tps[transfer_idx] :=
        List.getD_eq_getElem _ _ hguard
      rw [htp] at hsub
      simp only [List.map_cons] at hsub
      by_cases hmatch : legMatchesTp legs[j] (tps.getD transfer_idx defaultTP) = true
      · -- a segment is closed at leg j
        have hsub' : ((tps.drop (transfer_idx + 1)).map tpCoords).Sublist
            (rest.map (fun p => legToCoords p.2)) := by
          rcases cons_sublist_cons_inv hsub with h | ⟨heq, h⟩
          · exact List.sublist_of_cons_sublist h
          · exact h
        obtain ⟨ends', hchain', hbounds', heq', hlen'⟩ :=
          ih legs tps (j + 1) (j + 1) (transfer_idx + 1)
            (segments ++ [mkSegmentAt legs tps current_start j segments.length transfer_idx])
            hrest (by simp [hinv]) (by omega) hsub'
        refine ⟨j :: ends', ?_, ?_, ?_, ?_⟩
        · rw [List.chain'_cons']
          refine ⟨?_, hchain'⟩
          intro y hy
          have := hbounds' y (List.mem_of_mem_head? hy)
          omega
        · intro e he
          rcases List.mem_cons.mp he with he | he
          · omega
          · have := hbounds' e he
            omega
        · rw [createSegsAux]
          rw [if_pos hguard, if_pos hmatch, heq']
          rw [segmentsFromEndsAux]
          simp only [List.length_append, List.length_cons, List.length_nil]
          rw [hinv]
          simp [List.append_assoc]
        · simp only [List.length_cons]
          omega
      · -- no match: the head transfer point is met strictly later
        have hsub' : ((tps.drop transfer_idx).map tpCoords).Sublist
            (rest.map (fun p => legToCoords p.2)) := by
          rcases cons_sublist_cons_inv hsub with h | ⟨heq, h⟩
          · rw [htp, List.map_cons]
            exact h
          · exfalso
            apply hmatch
            rw [hgetD]
            exact legMatchesTp_of_coords_eq _ _ heq.symm
        obtain ⟨ends', hchain', hbounds', heq', hlen'⟩ :=
          ih legs tps (j + 1) current_start transfer_idx segments hrest hinv hle hsub'
        refine ⟨ends', hchain', ?_, ?_, hlen'⟩
        · intro e he
          have := hbounds' e he
          omega
        · rw [createSegsAux]
          rw [if_pos hguard, if_neg hmatch]
          exact heq'
    · -- transfer_idx exhausted
      have htpnil : tps.drop transfer_idx = [] := by
        apply List.drop_eq_nil_of_le
        omega
      have hsub' : ((tps.drop transfer_idx).map tpCoords).Sublist
          (rest.map (fun p => legToCoords p.2)) := by
        rw [htpnil]
        simp
      obtain ⟨ends', hchain', hbounds', heq', hlen'⟩ :=
        ih legs tps (j + 1) current_start transfer_idx segments hrest hinv hle hsub'
      refine ⟨ends', hchain', ?_, ?_, hlen'⟩
      · intro e he
        have := hbounds' e he
        omega
      · rw [createSegsAux]
        rw [if_neg hguard]
        exact heq'

end RouteSeg

namespace RouteSeg

/-- A single-leg itinerary has no intermediate transfer points. -/
theorem interTPs_singleton (l : Leg) : interTPs [l] = [] := rfl

/-- Structure of the segment list built for the transfer points that
extract_transfer_points produced: the segments are described by a
strictly increasing list of cut indices (so their leg spans are
contiguous, disjoint, and start at leg 0), with exactly one segment per
transfer point after the first. -/
theorem create_route_segments_structure (it : Itinerary) (hne : it.legs ≠ []) :
    ∃ ends : List ℕ,
      List.Chain' (· < ·) ends ∧
      (∀ e ∈ ends, e < it.legs.length) ∧
      create_route_segments it (extract_transfer_points it)
        = segmentsFromEnds it.legs (extract_transfer_points it) ends ∧
      ends.length + 1 = (extract_transfer_points it).length := by
  have hlen2 : (extract_transfer_points it).length = (interTPs it.legs).length + 2 :=
    extract_length it hne
  have hguard : ¬ (extract_transfer_points it).length < 2 := by omega
  have hsub : (((extract_transfer_points it).drop 1).map tpCoords).Sublist
      ((it.legs.enum).map (fun p => legToCoords p.2)) := by
    have hmap : (it.legs.enum).map (fun p => legToCoords p.2)
        = it.legs.map legToCoords := by
      have e1 : (it.legs.enum).map (fun p => legToCoords p.2)
          = ((it.legs.enum).map Prod.snd).map legToCoords := by
        rw [List.map_map]
        rfl
      rw [e1, List.enum_map_snd]
    rw [hmap, extract_eq it hne, List.drop_succ_cons, List.drop_zero]
    exact tail_coords_sublist it.legs hne
  obtain ⟨ends, hchain, hbounds, heq, hlen⟩ :=
    createSegsAux_spec it.legs (extract_transfer_points it) it.legs.enum 0 0 1 []
      (List.drop_zero _).symm (by simp) (by omega) hsub
  refine ⟨ends, hchain, ?_, ?_, ?_⟩
  · intro e he
    exact (hbounds e he).2
  · rw [create_route_segments]
    simp only [hguard, if_false]
    rw [heq]
    simp [segmentsFromEnds]
  · simpa using hlen

end RouteSeg

namespace RouteSeg

/-- The alternatives list is the PubliBike contribution followed by the
E-Scooter contribution. -/
theorem find_alternative_decomp (transfer_point destination : TransferPoint)
    (publibike_client : Option PBClient) (escooter_client : Option ESClient)
    (otp_client : Option OTPClient) (search_radius_m : ℚ) :
    find_alternative_modes_at_transfer transfer_point destination publibike_client
        escooter_client otp_client search_radius_m
      = bikeAlts transfer_point destination publibike_client otp_client search_radius_m
        ++ scooterAlts transfer_point destination escooter_client otp_client
             search_radius_m := by
  cases publibike_client with
  | none =>
    cases escooter_client with
    | none => simp [find_alternative_modes_at_transfer, bikeAlts, scooterAlts]
    | some c =>
      cases hsc : scooterBranch transfer_point destination c otp_client search_radius_m with
      | error e => simp [find_alternative_modes_at_transfer, bikeAlts, scooterAlts, hsc]
      | ok contrib => simp [find_alternative_modes_at_transfer, bikeAlts, scooterAlts, hsc]
  | some b =>
    cases hbb : bikeBranch transfer_point destination b otp_client search_radius_m with
    | error e =>
      cases escooter_client with
      | none => simp [find_alternative_modes_at_transfer, bikeAlts, scooterAlts, hbb]
      | some c =>
        cases hsc : scooterBranch transfer_point destination c otp_client search_radius_m with
        | error e2 =>
          simp [find_alternative_modes_at_transfer, bikeAlts, scooterAlts, hbb, hsc]
        | ok contrib =>
          simp [find_alternative_modes_at_transfer, bikeAlts, scooterAlts, hbb, hsc]
    | ok contrib =>
      cases escooter_client with
      | none => simp [find_alternative_modes_at_transfer, bikeAlts, scooterAlts, hbb]
      | some c =>
        cases hsc : scooterBranch transfer_point destination c otp_client search_radius_m with
        | error e2 =>
          simp [find_alternative_modes_at_transfer, bikeAlts, scooterAlts, hbb, hsc]
        | ok contrib2 =>
          simp [find_alternative_modes_at_transfer, bikeAlts, scooterAlts, hbb, hsc]

/-- Every alternative the PubliBike branch returns has mode publibike. -/
theorem bikeBranch_modes (transfer_point destination : TransferPoint) (client : PBClient)
    (otp_client : Option OTPClient) (search_radius_m : ℚ) (contrib : List Alternative)
    (h : bikeBranch transfer_point destination client otp_client search_radius_m
        = Except.ok contrib) :
    ∀ alt ∈ contrib, alt.mode = "publibike" := by
  rw [bikeBranch] at h
  cases hb : client.nearbyBikes transfer_point.latitude transfer_point.longitude
      search_radius_m with
  | error e => rw [hb] at h; cases h
  | ok nearby_bikes =>
    rw [hb] at h
    cases hr : client.nearbyReturns destination.latitude destination.longitude
        search_radius_m with
    | error e => rw [hr] at h; cases h
    | ok nearby_returns =>
      rw [hr] at h
      match nearby_bikes, nearby_returns, h with
      | [], _, h => cases h; simp
      | (s, d) :: _, [], h => cases h; simp
      | (s, d) :: _, (s2, d2) :: _, h =>
        cases h
        intro alt halt
        rw [List.mem_singleton] at halt
        subst halt
        rfl

/-- Every alternative the E-Scooter branch returns has mode e_scooter. -/
theorem scooterBranch_modes (transfer_point destination : TransferPoint) (client : ESClient)
    (otp_client : Option OTPClient) (search_radius_m : ℚ) (contrib : List Alternative)
    (h : scooterBranch transfer_point destination client otp_client search_radius_m
        = Except.ok contrib) :
    ∀ alt ∈ contrib, alt.mode = "e_scooter" := by
  rw [scooterBranch] at h
  cases hs : client.nearbyScooters transfer_point.latitude transfer_point.longitude
      search_radius_m with
  | error e => rw [hs] at h; cases h
  | ok nearby_scooters =>
    rw [hs] at h
    match nearby_scooters, h with
    | [], h => cases h; simp
    | (sc, d) :: _, h =>
      cases h
      intro alt halt
      rw [List.mem_singleton] at halt
      subst halt
      rfl

end RouteSeg

namespace RouteSeg

/-- When both provider lookups raise at a transfer point, the alternative
finder swallows both exceptions and returns no alternatives. -/
theorem find_alternative_all_fail (transfer_point destination : TransferPoint)
    (pb : PBClient) (es : ESClient) (otp_client : Option OTPClient) (r : ℚ)
    (hpb : ∃ e, pb.nearbyBikes transfer_point.latitude transfer_point.longitude r
        = Except.error e)
    (hes : ∃ e, es.nearbyScooters transfer_point.latitude transfer_point.longitude r
        = Except.error e) :
    find_alternative_modes_at_transfer transfer_point destination (some pb) (some es)
      otp_client r = [] := by
  obtain ⟨e1, h1⟩ := hpb
  obtain ⟨e2, h2⟩ := hes
  have hb : bikeBranch transfer_point destination pb otp_client r = Except.error e1 := by
    rw [bikeBranch, h1]
  have hs : scooterBranch transfer_point destination es otp_client r = Except.error e2 := by
    rw [scooterBranch, h2]
  rw [find_alternative_decomp, bikeAlts, scooterAlts, hb, hs]
  rfl

/-- A segment rebuilt from a cut index carries the default alternative
fields: none attached, none available. -/
theorem mkSegmentAt_defaults (legs : List Leg) (tps : List TransferPoint)
    (a b c d : ℕ) :
    (mkSegmentAt legs tps a b c d).alternatives_available = false ∧
    (mkSegmentAt legs tps a b c d).alternatives = [] := ⟨rfl, rfl⟩

/-- All segments produced by the cut-point rebuild carry the default
alternative fields. -/
theorem segmentsFromEndsAux_defaults (legs : List Leg) (tps : List TransferPoint) :
    ∀ (ends : List ℕ) (start c : ℕ) (s : RouteSegment),
      s ∈ segmentsFromEndsAux legs tps start c ends →
      s.alternatives_available = false ∧ s.alternatives = [] := by
  intro ends
  induction ends with
  | nil => intro start c s hs; cases hs
  | cons e es ih =>
    intro start c s hs
    rw [segmentsFromEndsAux] at hs
    rcases List.mem_cons.mp hs with hs | hs
    · subst hs
      exact mkSegmentAt_defaults legs tps start e c (c + 1)
    · exact ih (e + 1) (c + 1) s hs

/-- All segments produced by create_route_segments for the extracted
transfer points carry the default alternative fields. -/
theorem create_route_segments_defaults (it : Itinerary) (hne : it.legs ≠ [])
    (s : RouteSegment)
    (hs : s ∈ create_route_segments it (extract_transfer_points it)) :
    s.alternatives_available = false ∧ s.alternatives = [] := by
  obtain ⟨ends, _, _, heq, _⟩ := create_route_segments_structure it hne
  rw [heq, segmentsFromEnds] at hs
  exact segmentsFromEndsAux_defaults it.legs (extract_transfer_points it) ends 0 0 s hs

/-- If the alternative finder returns nothing at every point, the
augmentation loop body leaves every segment unchanged. -/
theorem augmentSegment_id (pb : Option PBClient) (es : Option ESClient)
    (otp : Option OTPClient) (final_dest : TransferPoint) (n i : ℕ)
    (seg : RouteSegment)
    (hall : ∀ tp, find_alternative_modes_at_transfer tp final_dest pb es otp 300 = []) :
    augmentSegment pb es otp final_dest n i seg = seg := by
  rw [augmentSegment]
  by_cases h0 : i = 0 <;> by_cases h1 : i < n - 1 <;>
    simp [h0, h1, hall]

end RouteSeg

namespace RouteSeg

/-- When every find_alternative call comes back empty, the augmentation
loop is the identity on the segment list. -/
theorem augment_map_id (pb : Option PBClient) (es : Option ESClient)
    (otp : Option OTPClient) (fd : TransferPoint) (n : ℕ)
    (segs : List RouteSegment)
    (hall : ∀ tp, find_alternative_modes_at_transfer tp fd pb es otp 300 = []) :
    segs.enum.map (fun p => augmentSegment pb es otp fd n p.1 p.2) = segs := by
  have h : segs.enum.map (fun p => augmentSegment pb es otp fd n p.1 p.2)
      = segs.enum.map Prod.snd :=
    List.map_congr_left (fun p _ => augmentSegment_id pb es otp fd n p.1 p.2 hall)
  rw [h, List.enum_map_snd]

/-- C5 helper: the full analyze result under totally failing providers. -/
theorem analyze_all_fail (it : Itinerary) (pb : PBClient) (es : ESClient)
    (otp : Option OTPClient)
    (hpb : ∀ a b c, ∃ e, pb.nearbyBikes a b c = Except.error e)
    (hes : ∀ a b c, ∃ e, es.nearbyScooters a b c = Except.error e) :
    analyze_route_with_alternatives it (some pb) (some es) otp
      = { transfer_points := (extract_transfer_points it).map tpToOut
          segments := (create_route_segments it (extract_transfer_points it)).map segToOut
          total_segments := (create_route_segments it (extract_transfer_points it)).length
          total_transfers := ((extract_transfer_points it).length : ℤ) - 2 } := by
  have hall : ∀ tp fd, find_alternative_modes_at_transfer tp fd (some pb) (some es)
      otp 300 = [] :=
    fun tp fd => find_alternative_all_fail tp fd pb es otp 300 (hpb _ _ _) (hes _ _ _)
  rw [analyze_route_with_alternatives]
  rw [augment_map_id (some pb) (some es) otp _ _ _ (fun tp => hall tp _)]
  rfl

end RouteSeg

namespace RouteSeg

/-! ## Concrete inputs used by witnesses and counterexamples -/

/-! ## Claims C2, C3, C4, C9, C5 -/

/-- C2: for every itinerary with at least one leg, the number of route
segments produced by create_route_segments equals the number of transfer
points produced by extract_transfer_points minus one; in particular a
single-leg itinerary yields exactly 2 transfer points and 1 segment. -/
theorem claim_C2 (it : Itinerary) (hne : it.legs ≠ []) :
    (create_route_segments it (extract_transfer_points it)).length
        = (extract_transfer_points it).length - 1 ∧
    (it.legs.length = 1 →
      (extract_transfer_points it).length = 2 ∧
      (create_route_segments it (extract_transfer_points it)).length = 1) := by
  obtain ⟨ends, _, _, heq, hlen⟩ := create_route_segments_structure it hne
  have hc : (create_route_segments it (extract_transfer_points it)).length
      = ends.length := by
    rw [heq, segmentsFromEnds, segmentsFromEndsAux_length]
  refine ⟨by omega, ?_⟩
  intro h1
  obtain ⟨l, hl⟩ := List.length_eq_one.mp h1
  have h2 : (extract_transfer_points it).length = 2 := by
    rw [extract_length it hne, hl, interTPs_singleton]
    rfl
  exact ⟨h2, by omega⟩

/-- Witness for C2 at the concrete single-leg itinerary itA. -/
theorem claim_C2_witness :
    (create_route_segments itA (extract_transfer_points itA)).length
        = (extract_transfer_points itA).length - 1 ∧
    (itA.legs.length = 1 →
      (extract_transfer_points itA).length = 2 ∧
      (create_route_segments itA (extract_transfer_points itA)).length = 1) :=
  claim_C2 itA (by decide)

/-- C3 as amended: the leg spans of the produced segments are contiguous,
pairwise disjoint, and start at leg 0 — they are exactly described by a
strictly increasing list of cut indices, one per transfer point after the
first, so segment boundaries are a subsequence of leg boundaries and no
leg is in two segments.  (Full coverage of the leg sequence can fail: see
the counterexample, where a trailing leg belongs to no segment.) -/
theorem claim_C3 (it : Itinerary) (hne : it.legs ≠ []) :
    ∃ ends : List ℕ,
      List.Chain' (· < ·) ends ∧
      (∀ e ∈ ends, e < it.legs.length) ∧
      create_route_segments it (extract_transfer_points it)
        = segmentsFromEnds it.legs (extract_transfer_points it) ends ∧
      ends.length + 1 = (extract_transfer_points it).length :=
  create_route_segments_structure it hne

/-- Witness for C3 at the concrete single-leg itinerary itA. -/
theorem claim_C3_witness :
    ∃ ends : List ℕ,
      List.Chain' (· < ·) ends ∧
      (∀ e ∈ ends, e < itA.legs.length) ∧
      create_route_segments itA (extract_transfer_points itA)
        = segmentsFromEnds itA.legs (extract_transfer_points itA) ends ∧
      ends.length + 1 = (extract_transfer_points itA).length :=
  claim_C3 itA (by decide)

/-- Counterexample to C3 as stated: at itC3x the produced segments do not
cover the whole leg sequence.  No cut-index description of the produced
segment list ends at the last leg (index 1), the single produced segment
aggregates 1000 m while the legs total 1500 m, so leg 1 belongs to no
segment. -/
theorem claim_C3_counterexample :
    (¬ ∃ ends : List ℕ,
        create_route_segments itC3x (extract_transfer_points itC3x)
          = segmentsFromEnds itC3x.legs (extract_transfer_points itC3x) ends ∧
        ends.getLast? = some (itC3x.legs.length - 1)) ∧
    ((create_route_segments itC3x (extract_transfer_points itC3x)).map
        (fun s => s.distance_m)) = [1000] ∧
    qsum (itC3x.legs.map (fun l => l.distance.getD 0)) = 1500 := by
  refine ⟨?_, by decide, by decide⟩
  rintro ⟨ends, heq, hlast⟩
  have h := congrArg List.length heq
  rw [segmentsFromEnds, segmentsFromEndsAux_length] at h
  have hc : (create_route_segments itC3x (extract_transfer_points itC3x)).length = 1 := by
    decide
  have hlen : ends.length = 1 := by omega
  obtain ⟨e, he⟩ := List.length_eq_one.mp hlen
  subst he
  have hL : itC3x.legs.length - 1 = 1 := by decide
  rw [hL] at hlast
  have he1 : e = 1 := by simpa using hlast
  subst he1
  revert heq
  decide

/-- C4: the transfer-point detector emits, between the origin and the
destination points, exactly one TransferPoint per adjacent leg pair whose
is_transfer condition holds and none otherwise, in boundary order; and
that condition is exactly: mode change, or route change, or the
destination name contains bahnhof or station (case-insensitively). -/
theorem claim_C4 (it : Itinerary) (hne : it.legs ≠ []) :
    extract_transfer_points it
      = startTP (it.legs.head hne)
          :: (((List.range (it.legs.length - 1)).map
                (fun i => if transferCond it.legs i then [interTPAt it.legs i] else [])).flatten
              ++ [destTP (it.legs.getLast hne)]) ∧
    ∀ i, i + 1 < it.legs.length →
      (transferCond it.legs i = true ↔
        ((it.legs.getD i defaultLeg).mode ≠ (it.legs.getD (i + 1) defaultLeg).mode ∨
         (it.legs.getD i defaultLeg).route ≠ (it.legs.getD (i + 1) defaultLeg).route ∨
         strContainsSub (pyLower ((it.legs.getD i defaultLeg).toName.getD "")) "bahnhof"
           = true ∨
         strContainsSub (pyLower ((it.legs.getD i defaultLeg).toName.getD "")) "station"
           = true)) := by
  refine ⟨by rw [extract_eq it hne, interTPs_characterization], ?_⟩
  intro i _
  rw [transferCond, isTransferBoundary]
  simp [Bool.or_eq_true, bne_iff_ne, or_assoc]

/-- Witness for C4 at the three-leg itinerary itB. -/
theorem claim_C4_witness :
    extract_transfer_points itB
      = startTP (itB.legs.head (by decide))
          :: (((List.range (itB.legs.length - 1)).map
                (fun i => if transferCond itB.legs i then [interTPAt itB.legs i] else [])).flatten
              ++ [destTP (itB.legs.getLast (by decide))]) ∧
    ∀ i, i + 1 < itB.legs.length →
      (transferCond itB.legs i = true ↔
        ((itB.legs.getD i defaultLeg).mode ≠ (itB.legs.getD (i + 1) defaultLeg).mode ∨
         (itB.legs.getD i defaultLeg).route ≠ (itB.legs.getD (i + 1) defaultLeg).route ∨
         strContainsSub (pyLower ((itB.legs.getD i defaultLeg).toName.getD "")) "bahnhof"
           = true ∨
         strContainsSub (pyLower ((itB.legs.getD i defaultLeg).toName.getD "")) "station"
           = true)) :=
  claim_C4 itB (by decide)

/-- C9 as amended: missing leg data never aborts the detector (it is
total over optional fields, reading missing entries as null); at a
boundary whose first leg has no mode entry, a TransferPoint is emitted
exactly when the second leg does have a mode entry (null differs from
any present mode), or the route entries differ, or the destination name
matches a station term.  In particular a missing mode on both sides with
equal routes and a non-station name emits nothing, but a missing mode
next to a present mode does emit a TransferPoint. -/
theorem claim_C9 (it : Itinerary) (i : ℕ) (hvalid : i + 1 < it.legs.length)
    (hm : (it.legs.getD i defaultLeg).mode = none) :
    (transferCond it.legs i = true ↔
      ((it.legs.getD (i + 1) defaultLeg).mode ≠ none ∨
       (it.legs.getD i defaultLeg).route ≠ (it.legs.getD (i + 1) defaultLeg).route ∨
       strContainsSub (pyLower ((it.legs.getD i defaultLeg).toName.getD "")) "bahnhof"
         = true ∨
       strContainsSub (pyLower ((it.legs.getD i defaultLeg).toName.getD "")) "station"
         = true)) := by
  rw [transferCond, isTransferBoundary, hm]
  simp only [Bool.or_eq_true, bne_iff_ne, ne_eq, or_assoc]
  constructor
  · rintro (h1 | h2)
    · exact Or.inl (fun heq => h1 heq.symm)
    · exact Or.inr h2
  · rintro (h1 | h2)
    · exact Or.inl (fun heq => h1 heq.symm)
    · exact Or.inr h2

/-- Witness for C9 at it9, boundary 0 (first leg has no mode entry). -/
theorem claim_C9_witness :
    transferCond it9.legs 0 = true ↔
      ((it9.legs.getD 1 defaultLeg).mode ≠ none ∨
       (it9.legs.getD 0 defaultLeg).route ≠ (it9.legs.getD 1 defaultLeg).route ∨
       strContainsSub (pyLower ((it9.legs.getD 0 defaultLeg).toName.getD "")) "bahnhof"
         = true ∨
       strContainsSub (pyLower ((it9.legs.getD 0 defaultLeg).toName.getD "")) "station"
         = true) :=
  claim_C9 it9 0 (by decide) (by decide)

/-- Counterexample to C9 as stated: in it9 the only asymmetry at the
boundary is the missing mode entry of the first leg (routes agree and
the name B matches no station term), yet the detector does emit an
intermediate TransferPoint: three points instead of the two the claim
predicts. -/
theorem claim_C9_counterexample :
    (extract_transfer_points it9).length = 3 ∧ transferCond it9.legs 0 = true := by
  decide

/-- C5: if every provider lookup raises, the augmentation still returns
the fully segmented primary route: the segment list is exactly the
segmentation of the itinerary, every segment is present with
alternatives_available false and an empty alternatives list, and the
failures never propagate out (analyze_route_with_alternatives is total
and returns the complete result record). -/
theorem claim_C5 (it : Itinerary) (hne : it.legs ≠ []) (pb : PBClient) (es : ESClient)
    (otp : Option OTPClient)
    (hpb : ∀ a b c, ∃ e, pb.nearbyBikes a b c = Except.error e)
    (hpr : ∀ a b c, ∃ e, pb.nearbyReturns a b c = Except.error e)
    (hes : ∀ a b c, ∃ e, es.nearbyScooters a b c = Except.error e) :
    (analyze_route_with_alternatives it (some pb) (some es) otp).segments
        = (create_route_segments it (extract_transfer_points it)).map segToOut ∧
    (analyze_route_with_alternatives it (some pb) (some es) otp).transfer_points
        = (extract_transfer_points it).map tpToOut ∧
    (analyze_route_with_alternatives it (some pb) (some es) otp).total_segments
        = (create_route_segments it (extract_transfer_points it)).length ∧
    (analyze_route_with_alternatives it (some pb) (some es) otp).total_transfers
        = ((extract_transfer_points it).length : ℤ) - 2 ∧
    ∀ s ∈ (analyze_route_with_alternatives it (some pb) (some es) otp).segments,
      s.alternatives_available = false ∧ s.alternatives = [] := by
  have hres := analyze_all_fail it pb es otp hpb hes
  rw [hres]
  refine ⟨rfl, rfl, rfl, rfl, ?_⟩
  intro s hs
  simp only [List.mem_map] at hs
  obtain ⟨seg, hseg, rfl⟩ := hs
  exact create_route_segments_defaults it hne seg hseg

/-- Witness for C5: concrete single-leg itinerary with always-failing
provider clients. -/
theorem claim_C5_witness :
    (analyze_route_with_alternatives itA (some pbFail) (some esFail) none).segments
        = (create_route_segments itA (extract_transfer_points itA)).map segToOut ∧
    (analyze_route_with_alternatives itA (some pbFail) (some esFail) none).transfer_points
        = (extract_transfer_points itA).map tpToOut ∧
    (analyze_route_with_alternatives itA (some pbFail) (some esFail) none).total_segments
        = (create_route_segments itA (extract_transfer_points itA)).length ∧
    (analyze_route_with_alternatives itA (some pbFail) (some esFail) none).total_transfers
        = ((extract_transfer_points itA).length : ℤ) - 2 ∧
    ∀ s ∈ (analyze_route_with_alternatives itA (some pbFail) (some esFail) none).segments,
      s.alternatives_available = false ∧ s.alternatives = [] :=
  claim_C5 itA (by decide) pbFail esFail none
    (fun _ _ _ => ⟨"ProviderUnavailable", rfl⟩)
    (fun _ _ _ => ⟨"ProviderUnavailable", rfl⟩)
    (fun _ _ _ => ⟨"ProviderUnavailable", rfl⟩)

end RouteSeg

namespace RouteSeg

/-- With a nonempty bike list and a nonempty return list, the PubliBike
branch produces exactly one alternative, built from the first entries. -/
theorem bikeBranch_ok (tp dest : TransferPoint) (pb : PBClient)
    (otp : Option OTPClient) (r : ℚ) (s1 : Station) (d1 : ℚ)
    (bs : List (Station × ℚ)) (s2 : Station) (d2 : ℚ) (rs : List (Station × ℚ))
    (hb : pb.nearbyBikes tp.latitude tp.longitude r = Except.ok ((s1, d1) :: bs))
    (hr : pb.nearbyReturns dest.latitude dest.longitude r = Except.ok ((s2, d2) :: rs)) :
    bikeBranch tp dest pb otp r
      = Except.ok [mkBikeAlternative s1 d1 s2 d2 (bikeEstimate otp s1 s2 d1 d2)] := by
  rw [bikeBranch, hb, hr]

/-- With a nonempty scooter list, the E-Scooter branch produces exactly
one alternative, built from the first entry. -/
theorem scooterBranch_ok (tp dest : TransferPoint) (es : ESClient)
    (otp : Option OTPClient) (r : ℚ) (sc : Scooter) (w : ℚ)
    (rest : List (Scooter × ℚ))
    (hs : es.nearbyScooters tp.latitude tp.longitude r = Except.ok ((sc, w) :: rest)) :
    scooterBranch tp dest es otp r
      = Except.ok [mkScooterAlternative sc w (scooterEstimate otp dest sc w)] := by
  rw [scooterBranch, hs]

/-- When the secondary bicycle routing call is unavailable, raises, or
returns no itinerary, both bike estimates are None. -/
theorem bikeEstimate_fail (otp : Option OTPClient) (s1 s2 : Station) (d1 d2 : ℚ)
    (hotp : otp = none ∨ ∃ oc, otp = some oc ∧
      ((∃ e, oc.planBicycle s1.latitude s1.longitude s2.latitude s2.longitude 1
          = Except.error e) ∨
       (∃ resp, oc.planBicycle s1.latitude s1.longitude s2.latitude s2.longitude 1
          = Except.ok resp ∧ resp.itineraries = []))) :
    bikeEstimate otp s1 s2 d1 d2 = (none, none) := by
  rcases hotp with rfl | ⟨oc, rfl, hcase⟩
  · rfl
  · rcases hcase with ⟨e, he⟩ | ⟨resp, hok, hnil⟩
    · rw [bikeEstimate, he]
    · obtain ⟨itins⟩ := resp
      have h0 : itins = [] := hnil
      subst h0
      rw [bikeEstimate, hok]

/-- When the secondary WALK routing call succeeds with an itinerary, the
scooter estimates follow the speed-factor and cost formulas. -/
theorem scooterEstimate_ok (oc : OTPClient) (dest : TransferPoint) (sc : Scooter)
    (w : ℚ) (resp : OTPResponse) (itin : OTPItinerary) (more : List OTPItinerary)
    (hp : oc.plan sc.latitude sc.longitude dest.latitude dest.longitude "WALK" 10000 1
        = Except.ok resp)
    (hit : resp.itineraries = itin :: more) :
    scooterEstimate (some oc) dest sc w
      = (some (qadd (qmax 3 (pyRound 1 (divq (parse_otp_itinerary itin).duration_min 3)))
                 (pyRound 1 (divq w 80))),
         some (divq (parse_otp_itinerary itin).walk_distance_m 1000),
         pyRound 2 (qadd 1 (qmul
           (qmax 3 (pyRound 1 (divq (parse_otp_itinerary itin).duration_min 3)))
           (mkRat 29 100)))) := by
  obtain ⟨itins⟩ := resp
  have h0 : itins = itin :: more := hit
  subst h0
  rw [scooterEstimate, hp]

/-! ## Claim C1 -/

/-- C1 as amended: when the secondary bicycle routing call for a
bike-share candidate fails, times out, or is unavailable, the produced
publibike Alternative carries a null duration estimate (no fixed
18-minute default exists in this code path) and a null distance; the
Alternative is still produced, first in the list. -/
theorem claim_C1 (tp dest : TransferPoint) (pb : PBClient) (es : Option ESClient)
    (otp : Option OTPClient) (r : ℚ) (s1 : Station) (d1 : ℚ)
    (bs : List (Station × ℚ)) (s2 : Station) (d2 : ℚ) (rs : List (Station × ℚ))
    (hb : pb.nearbyBikes tp.latitude tp.longitude r = Except.ok ((s1, d1) :: bs))
    (hr : pb.nearbyReturns dest.latitude dest.longitude r = Except.ok ((s2, d2) :: rs))
    (hotp : otp = none ∨ ∃ oc, otp = some oc ∧
      ((∃ e, oc.planBicycle s1.latitude s1.longitude s2.latitude s2.longitude 1
          = Except.error e) ∨
       (∃ resp, oc.planBicycle s1.latitude s1.longitude s2.latitude s2.longitude 1
          = Except.ok resp ∧ resp.itineraries = []))) :
    ((find_alternative_modes_at_transfer tp dest (some pb) es otp r).head?).map
        (fun a => (a.mode, a.duration_min, a.distance_km))
      = some ("publibike", none, none) := by
  have hbb := bikeBranch_ok tp dest pb otp r s1 d1 bs s2 d2 rs hb hr
  have hest := bikeEstimate_fail otp s1 s2 d1 d2 hotp
  rw [find_alternative_decomp]
  have hba : bikeAlts tp dest (some pb) otp r
      = [mkBikeAlternative s1 d1 s2 d2 (bikeEstimate otp s1 s2 d1 d2)] := by
    simp [bikeAlts, hbb]
  rw [hba, hest]
  rfl

/-- Witness for C1: the bike-share candidate is found, the secondary
routing call times out, and the produced alternative carries null
estimates. -/
theorem claim_C1_witness :
    ((find_alternative_modes_at_transfer tpC destC (some pbC) none (some otpFailC)
        300).head?).map (fun a => (a.mode, a.duration_min, a.distance_km))
      = some ("publibike", none, none) :=
  claim_C1 tpC destC pbC none (some otpFailC) 300 stationC1 120 [] stationC2 80 []
    rfl rfl (Or.inr ⟨otpFailC, rfl, Or.inl ⟨"timeout", rfl⟩⟩)

/-- Counterexample to C1 as stated: at the same concrete input the claim
asserts a default duration estimate of 18 minutes flat, but the produced
alternative's duration is null, not 18. -/
theorem claim_C1_counterexample :
    ((find_alternative_modes_at_transfer tpC destC (some pbC) none (some otpFailC)
        300).map (fun a => (a.mode, a.duration_min))) = [("publibike", none)] ∧
    (none : Option ℚ) ≠ some 18 := by
  constructor
  · decide
  · decide

end RouteSeg

namespace RouteSeg

/-- Every alternative contributed through the scooter handler has mode
e_scooter. -/
theorem scooterAlts_modes (tp dest : TransferPoint) (es : Option ESClient)
    (otp : Option OTPClient) (r : ℚ) :
    ∀ alt ∈ scooterAlts tp dest es otp r, alt.mode = "e_scooter" := by
  cases es with
  | none => intro alt halt; cases halt
  | some c =>
    cases hsb : scooterBranch tp dest c otp r with
    | error e => intro alt halt; rw [scooterAlts, hsb] at halt; cases halt
    | ok contrib =>
      intro alt halt
      rw [scooterAlts, hsb] at halt
      exact scooterBranch_modes tp dest c otp r contrib hsb alt halt

/-- When the return-station lookup finds nothing, the PubliBike handler
contributes nothing. -/
theorem bikeAlts_empty_of_no_returns (tp dest : TransferPoint) (pb : PBClient)
    (otp : Option OTPClient) (r : ℚ)
    (hr : pb.nearbyReturns dest.latitude dest.longitude r = Except.ok []) :
    bikeAlts tp dest (some pb) otp r = [] := by
  cases hb : pb.nearbyBikes tp.latitude tp.longitude r with
  | error e => simp [bikeAlts, bikeBranch, hb]
  | ok lst =>
    cases lst with
    | nil => simp [bikeAlts, bikeBranch, hb, hr]
    | cons p ps =>
      obtain ⟨s, d⟩ := p
      simp [bikeAlts, bikeBranch, hb, hr]

/-- When the bike lookup finds nothing, the PubliBike handler contributes
nothing. -/
theorem bikeAlts_empty_of_no_bikes (tp dest : TransferPoint) (pb : PBClient)
    (otp : Option OTPClient) (r : ℚ)
    (hb : pb.nearbyBikes tp.latitude tp.longitude r = Except.ok []) :
    bikeAlts tp dest (some pb) otp r = [] := by
  cases hret : pb.nearbyReturns dest.latitude dest.longitude r with
  | error e => simp [bikeAlts, bikeBranch, hb, hret]
  | ok rlst =>
    cases rlst with
    | nil => simp [bikeAlts, bikeBranch, hb, hret]
    | cons p ps =>
      obtain ⟨s, d⟩ := p
      simp [bikeAlts, bikeBranch, hb, hret]

/-- C6: a bike-share Alternative requires both a station with bikes near
the transfer point and a return-capable station near the destination —
if either lookup comes back empty, no publibike alternative appears; a
scooter-share Alternative requires no return dock: it is produced
whenever the scooter lookup finds an available scooter. -/
theorem claim_C6 :
    (∀ (tp dest : TransferPoint) (pb : PBClient) (es : Option ESClient)
       (otp : Option OTPClient) (r : ℚ),
       pb.nearbyReturns dest.latitude dest.longitude r = Except.ok [] →
       ∀ alt ∈ find_alternative_modes_at_transfer tp dest (some pb) es otp r,
         alt.mode ≠ "publibike") ∧
    (∀ (tp dest : TransferPoint) (pb : PBClient) (es : Option ESClient)
       (otp : Option OTPClient) (r : ℚ),
       pb.nearbyBikes tp.latitude tp.longitude r = Except.ok [] →
       ∀ alt ∈ find_alternative_modes_at_transfer tp dest (some pb) es otp r,
         alt.mode ≠ "publibike") ∧
    (∀ (tp dest : TransferPoint) (pb : Option PBClient) (es : ESClient)
       (otp : Option OTPClient) (r : ℚ) (sc : Scooter) (w : ℚ)
       (rest : List (Scooter × ℚ)),
       es.nearbyScooters tp.latitude tp.longitude r = Except.ok ((sc, w) :: rest) →
       ∃ alt ∈ find_alternative_modes_at_transfer tp dest pb (some es) otp r,
         alt.mode = "e_scooter") := by
  refine ⟨?_, ?_, ?_⟩
  · intro tp dest pb es otp r hr alt halt
    rw [find_alternative_decomp] at halt
    rcases List.mem_append.mp halt with h | h
    · rw [bikeAlts_empty_of_no_returns tp dest pb otp r hr] at h
      cases h
    · rw [scooterAlts_modes tp dest es otp r alt h]
      decide
  · intro tp dest pb es otp r hb alt halt
    rw [find_alternative_decomp] at halt
    rcases List.mem_append.mp halt with h | h
    · rw [bikeAlts_empty_of_no_bikes tp dest pb otp r hb] at h
      cases h
    · rw [scooterAlts_modes tp dest es otp r alt h]
      decide
  · intro tp dest pb es otp r sc w rest hs
    refine ⟨mkScooterAlternative sc w (scooterEstimate otp dest sc w), ?_, rfl⟩
    rw [find_alternative_decomp]
    refine List.mem_append_right _ ?_
    have hsa : scooterAlts tp dest (some es) otp r
        = [mkScooterAlternative sc w (scooterEstimate otp dest sc w)] := by
      simp [scooterAlts, scooterBranch_ok tp dest es otp r sc w rest hs]
    rw [hsa]
    exact List.mem_singleton_self _

/-- Witness for C6 (Scenario C): with a scooter nearby but no return
dock, the scooter alternative is produced and no publibike alternative
appears. -/
theorem claim_C6_witness :
    (∀ alt ∈ find_alternative_modes_at_transfer tpC destC (some pbNoReturn)
        (some esC) none 300, alt.mode ≠ "publibike") ∧
    (∃ alt ∈ find_alternative_modes_at_transfer tpC destC (some pbNoReturn)
        (some esC) none 300, alt.mode = "e_scooter") :=
  ⟨claim_C6.1 tpC destC pbNoReturn (some esC) none 300 rfl,
   claim_C6.2.2 tpC destC (some pbNoReturn) esC none 300 scooterC 150 [] rfl⟩

/-- C7: when the secondary routing call for a scooter candidate succeeds
with parsed duration d minutes and the candidate is w meters from the
transfer point, the scooter Alternative's estimated duration is
max(3, round1(d / 3)) + round1(w / 80) and its estimated cost is
round2(1.0 + 0.29 * max(3, round1(d / 3))). -/
theorem claim_C7 (tp dest : TransferPoint) (pb : Option PBClient) (es : ESClient)
    (oc : OTPClient) (r : ℚ) (sc : Scooter) (w : ℚ) (rest : List (Scooter × ℚ))
    (resp : OTPResponse) (itin : OTPItinerary) (more : List OTPItinerary) (d : ℚ)
    (hs : es.nearbyScooters tp.latitude tp.longitude r = Except.ok ((sc, w) :: rest))
    (hp : oc.plan sc.latitude sc.longitude dest.latitude dest.longitude "WALK" 10000 1
        = Except.ok resp)
    (hit : resp.itineraries = itin :: more)
    (hd : (parse_otp_itinerary itin).duration_min = d) :
    ∃ alt ∈ find_alternative_modes_at_transfer tp dest pb (some es) (some oc) r,
      alt.mode = "e_scooter" ∧
      alt.duration_min = some (qadd (qmax 3 (pyRound 1 (divq d 3)))
        (pyRound 1 (divq w 80))) ∧
      alt.est_cost_chf = pyRound 2 (qadd 1 (qmul (qmax 3 (pyRound 1 (divq d 3)))
        (mkRat 29 100))) := by
  have hest := scooterEstimate_ok oc dest sc w resp itin more hp hit
  refine ⟨mkScooterAlternative sc w (scooterEstimate (some oc) dest sc w), ?_, rfl, ?_, ?_⟩
  · rw [find_alternative_decomp]
    refine List.mem_append_right _ ?_
    have hsa : scooterAlts tp dest (some es) (some oc) r
        = [mkScooterAlternative sc w (scooterEstimate (some oc) dest sc w)] := by
      simp [scooterAlts, scooterBranch_ok tp dest es (some oc) r sc w rest hs]
    rw [hsa]
    exact List.mem_singleton_self _
  · show (scooterEstimate (some oc) dest sc w).1 = _
    rw [hest, hd]
  · show (scooterEstimate (some oc) dest sc w).2.2 = _
    rw [hest, hd]

/-- Witness for C7: the 720-second walk parses to 12 minutes, so the
scooter riding time is max(3, 4.0) = 4.0 minutes, the walk to the
scooter adds round1(150 / 80) = 1.9 minutes, and the cost is
round2(1 + 4 * 0.29) = 2.16. -/
theorem claim_C7_witness :
    (∃ alt ∈ find_alternative_modes_at_transfer tpC destC none (some esC)
        (some otpOkC) 300,
      alt.mode = "e_scooter" ∧
      alt.duration_min = some (qadd (qmax 3 (pyRound 1 (divq 12 3)))
        (pyRound 1 (divq 150 80))) ∧
      alt.est_cost_chf = pyRound 2 (qadd 1 (qmul (qmax 3 (pyRound 1 (divq 12 3)))
        (mkRat 29 100)))) ∧
    qadd (qmax 3 (pyRound 1 (divq 12 3))) (pyRound 1 (divq 150 80)) = mkRat 59 10 ∧
    pyRound 2 (qadd 1 (qmul (qmax 3 (pyRound 1 (divq 12 3)))
      (mkRat 29 100))) = mkRat 216 100 :=
  ⟨claim_C7 tpC destC none esC otpOkC 300 scooterC 150 []
      ⟨[{ duration := some 720, startTime := some 0, endTime := some 720000
          walkDistance := some 2400, transfers := some 0 }]⟩
      { duration := some 720, startTime := some 0, endTime := some 720000
        walkDistance := some 2400, transfers := some 0 } [] 12
      rfl rfl rfl (by decide),
   by decide, by decide⟩

/-- C10: a scooter Alternative built from a scooter whose battery level
is unknown reports battery_percentage 100 in its payload, while its
summary omits the battery clause. -/
theorem claim_C10 (tp dest : TransferPoint) (pb : Option PBClient) (es : ESClient)
    (otp : Option OTPClient) (r : ℚ) (sc : Scooter) (w : ℚ)
    (rest : List (Scooter × ℚ))
    (hs : es.nearbyScooters tp.latitude tp.longitude r = Except.ok ((sc, w) :: rest))
    (hb : sc.battery_level = none) :
    ∃ alt ∈ find_alternative_modes_at_transfer tp dest pb (some es) otp r,
      alt.mode = "e_scooter" ∧
      alt.scooter = some
        { id := sc.vehicle_id
          distance_m := pyInt w
          battery_percentage := 100
          provider := sc.provider_name
          latitude := sc.latitude
          longitude := sc.longitude } ∧
      alt.summary = "Voi Scooter (" ++ toString (pyInt w) ++ "m away)" := by
  refine ⟨mkScooterAlternative sc w (scooterEstimate otp dest sc w), ?_, rfl, ?_, ?_⟩
  · rw [find_alternative_decomp]
    refine List.mem_append_right _ ?_
    have hsa : scooterAlts tp dest (some es) otp r
        = [mkScooterAlternative sc w (scooterEstimate otp dest sc w)] := by
      simp [scooterAlts, scooterBranch_ok tp dest es otp r sc w rest hs]
    rw [hsa]
    exact List.mem_singleton_self _
  · simp [mkScooterAlternative, Scooter.get_battery_percentage, hb]
  · simp [mkScooterAlternative, Scooter.get_battery_percentage, hb]

/-- Witness for C10 at the unknown-battery scooter. -/
theorem claim_C10_witness :
    ∃ alt ∈ find_alternative_modes_at_transfer tpC destC none (some esNB) none 300,
      alt.mode = "e_scooter" ∧
      alt.scooter = some
        { id := scooterNB.vehicle_id
          distance_m := pyInt 90
          battery_percentage := 100
          provider := scooterNB.provider_name
          latitude := scooterNB.latitude
          longitude := scooterNB.longitude } ∧
      alt.summary = "Voi Scooter (" ++ toString (pyInt 90) ++ "m away)" :=
  claim_C10 tpC destC none esNB none 300 scooterNB 90 [] rfl rfl

end RouteSeg

namespace RouteSeg

/-- Membership in the filtering fold shared by the two nearby searches:
an element is collected exactly when it passes both prefilters and its
computed distance is within the radius. -/
theorem mem_foldl_nearby {α β : Type} (c1 c2 : α → Bool) (dv : α → ℚ) (g : α → ℚ → β)
    (radius : ℚ) :
    ∀ (xs : List α) (acc : List β) (y : β),
      (y ∈ xs.foldl (fun acc x =>
          if c1 x then acc
          else if c2 x then acc
          else if dv x ≤ radius then acc ++ [g x (dv x)] else acc) acc)
      ↔ (y ∈ acc ∨ ∃ x ∈ xs, c1 x = false ∧ c2 x = false ∧ dv x ≤ radius ∧
          y = g x (dv x)) := by
  intro xs
  induction xs with
  | nil =>
    intro acc y
    simp
  | cons x xs ih =>
    intro acc y
    rw [List.foldl_cons]
    by_cases h1 : c1 x = true
    · rw [if_pos h1, ih]
      simp [h1]
    · rw [if_neg h1]
      by_cases h2 : c2 x = true
      · rw [if_pos h2, ih]
        simp [h1, h2]
      · rw [if_neg h2]
        by_cases h3 : dv x ≤ radius
        · rw [if_pos h3, ih]
          simp only [List.mem_append, List.mem_cons, List.not_mem_nil, or_false]
          constructor
          · rintro ((hy | hy) | ⟨x', hx', hc⟩)
            · exact Or.inl hy
            · exact Or.inr ⟨x, Or.inl rfl,
                by simp only [Bool.not_eq_true] at h1 h2
                   exact ⟨h1, h2, h3, hy⟩⟩
            · exact Or.inr ⟨x', Or.inr hx', hc⟩
          · rintro (hy | ⟨x', hx' | hx', hc⟩)
            · exact Or.inl (Or.inl hy)
            · subst hx'
              exact Or.inl (Or.inr hc.2.2.2)
            · exact Or.inr ⟨x', hx', hc⟩
        · rw [if_neg h3, ih]
          simp only [List.mem_cons]
          constructor
          · rintro (hy | ⟨x', hx', hc⟩)
            · exact Or.inl hy
            · exact Or.inr ⟨x', Or.inr hx', hc⟩
          · rintro (hy | ⟨x', hx' | hx', hc⟩)
            · exact Or.inl hy
            · subst hx'
              exact absurd hc.2.2.1 h3
            · exact Or.inr ⟨x', hx', hc⟩

/-- Membership characterization of find_nearby_stations. -/
theorem mem_find_nearby_stations (dist : ℚ → ℚ → ℚ → ℚ → ℚ) (lat lon : ℚ)
    (stations : List Station) (radius_m : ℚ) (oa ob : Bool) (x : Station × ℚ) :
    x ∈ find_nearby_stations dist lat lon stations radius_m oa ob ↔
      ∃ s ∈ stations, (oa && !s.is_active) = false ∧
        (ob && !s.has_bikes_available) = false ∧
        dist lat lon s.latitude s.longitude ≤ radius_m ∧
        x = (s, dist lat lon s.latitude s.longitude) := by
  constructor
  · intro h
    have h2 := (mem_foldl_nearby (fun s : Station => oa && !s.is_active)
      (fun s => ob && !s.has_bikes_available)
      (fun s => dist lat lon s.latitude s.longitude)
      (fun s dv => (s, dv)) radius_m stations [] x).mp (List.mem_mergeSort.mp h)
    simpa using h2
  · intro h
    refine List.mem_mergeSort.mpr ?_
    refine (mem_foldl_nearby (fun s : Station => oa && !s.is_active)
      (fun s => ob && !s.has_bikes_available)
      (fun s => dist lat lon s.latitude s.longitude)
      (fun s dv => (s, dv)) radius_m stations [] x).mpr ?_
    simpa using h

end RouteSeg

namespace RouteSeg

/-- Membership characterization of find_nearby_scooters. -/
theorem mem_find_nearby_scooters (dist : ℚ → ℚ → ℚ → ℚ → ℚ) (lat lon : ℚ)
    (scooters : List Scooter) (radius_m : ℚ) (oa : Bool) (mb : Option ℚ)
    (x : Scooter × ℚ) :
    x ∈ find_nearby_scooters dist lat lon scooters radius_m oa mb ↔
      ∃ s ∈ scooters, (oa && !s.is_available) = false ∧
        batteryFilter mb s = false ∧
        dist lat lon s.latitude s.longitude ≤ radius_m ∧
        x = (s, dist lat lon s.latitude s.longitude) := by
  constructor
  · intro h
    have h2 := (mem_foldl_nearby (fun s : Scooter => oa && !s.is_available)
      (batteryFilter mb)
      (fun s => dist lat lon s.latitude s.longitude)
      (fun s dv => (s, dv)) radius_m scooters [] x).mp (List.mem_mergeSort.mp h)
    simpa using h2
  · intro h
    refine List.mem_mergeSort.mpr ?_
    refine (mem_foldl_nearby (fun s : Scooter => oa && !s.is_available)
      (batteryFilter mb)
      (fun s => dist lat lon s.latitude s.longitude)
      (fun s dv => (s, dv)) radius_m scooters [] x).mpr ?_
    simpa using h

/-- C8: for every distance function (in the source, the Haversine
formula), fixed candidate list, center and filter flags, both nearby
searches are monotone in the radius — every candidate returned for
radius r1 is returned for any radius r2 at least r1 — and every
returned candidate carries its computed center distance, which is at
most the query radius. -/
theorem claim_C8 :
    (∀ (dist : ℚ → ℚ → ℚ → ℚ → ℚ) (lat lon : ℚ) (stations : List Station)
       (r1 r2 : ℚ) (oa ob : Bool) (x : Station × ℚ), r1 ≤ r2 →
       x ∈ find_nearby_stations dist lat lon stations r1 oa ob →
       x ∈ find_nearby_stations dist lat lon stations r2 oa ob) ∧
    (∀ (dist : ℚ → ℚ → ℚ → ℚ → ℚ) (lat lon : ℚ) (stations : List Station)
       (r : ℚ) (oa ob : Bool) (x : Station × ℚ),
       x ∈ find_nearby_stations dist lat lon stations r oa ob →
       x.2 ≤ r ∧ x.2 = dist lat lon x.1.latitude x.1.longitude) ∧
    (∀ (dist : ℚ → ℚ → ℚ → ℚ → ℚ) (lat lon : ℚ) (scooters : List Scooter)
       (r1 r2 : ℚ) (oa : Bool) (mb : Option ℚ) (x : Scooter × ℚ), r1 ≤ r2 →
       x ∈ find_nearby_scooters dist lat lon scooters r1 oa mb →
       x ∈ find_nearby_scooters dist lat lon scooters r2 oa mb) ∧
    (∀ (dist : ℚ → ℚ → ℚ → ℚ → ℚ) (lat lon : ℚ) (scooters : List Scooter)
       (r : ℚ) (oa : Bool) (mb : Option ℚ) (x : Scooter × ℚ),
       x ∈ find_nearby_scooters dist lat lon scooters r oa mb →
       x.2 ≤ r ∧ x.2 = dist lat lon x.1.latitude x.1.longitude) := by
  refine ⟨?_, ?_, ?_, ?_⟩
  · intro dist lat lon stations r1 r2 oa ob x h12 hx
    obtain ⟨s, hs, h1, h2, hd, rfl⟩ :=
      (mem_find_nearby_stations dist lat lon stations r1 oa ob x).mp hx
    exact (mem_find_nearby_stations dist lat lon stations r2 oa ob _).mpr
      ⟨s, hs, h1, h2, le_trans hd h12, rfl⟩
  · intro dist lat lon stations r oa ob x hx
    obtain ⟨s, hs, h1, h2, hd, rfl⟩ :=
      (mem_find_nearby_stations dist lat lon stations r oa ob x).mp hx
    exact ⟨hd, rfl⟩
  · intro dist lat lon scooters r1 r2 oa mb x h12 hx
    obtain ⟨s, hs, h1, h2, hd, rfl⟩ :=
      (mem_find_nearby_scooters dist lat lon scooters r1 oa mb x).mp hx
    exact (mem_find_nearby_scooters dist lat lon scooters r2 oa mb _).mpr
      ⟨s, hs, h1, h2, le_trans hd h12, rfl⟩
  · intro dist lat lon scooters r oa mb x hx
    obtain ⟨s, hs, h1, h2, hd, rfl⟩ :=
      (mem_find_nearby_scooters dist lat lon scooters r oa mb x).mp hx
    exact ⟨hd, rfl⟩

/-- Witness for C8: a station found at distance 5 under radius 10 is
still found under radius 20, has distance at most 20, and carries the
computed distance. -/
theorem claim_C8_witness :
    ((st0, (5 : ℚ)) ∈ find_nearby_stations (fun _ _ _ _ => 5) 0 0 [st0] 20 true false) ∧
    ((5 : ℚ) ≤ 20 ∧ (5 : ℚ) = (fun _ _ _ _ => (5 : ℚ)) 0 0 st0.latitude st0.longitude) := by
  have hmem10 : (st0, (5 : ℚ)) ∈ find_nearby_stations (fun _ _ _ _ => 5) 0 0 [st0] 10
      true false :=
    (mem_find_nearby_stations (fun _ _ _ _ => 5) 0 0 [st0] 10 true false (st0, 5)).mpr
      ⟨st0, by decide, by decide, by decide, by decide, rfl⟩
  have hmem20 := claim_C8.1 (fun _ _ _ _ => 5) 0 0 [st0] 10 20 true false (st0, 5)
    (by decide) hmem10
  have hbound := claim_C8.2.1 (fun _ _ _ _ => 5) 0 0 [st0] 20 true false (st0, 5) hmem20
  exact ⟨hmem20, hbound⟩

end RouteSeg
